import Mathlib

/-!
Verification development for the RTC_RDP_Server serial/actuator core.

The definitions below are a shallow embedding of the Python sources:
machine floats are modelled by exact rationals (`ℚ`), Python integers by `ℤ`,
dictionaries keyed by servo ids by association lists, the serial peer by the
list of reply lines it produces, and monotonic time by explicit `ℚ`-valued
parameters.  Each definition carries a comment naming the source function it
embeds.
-/

set_option maxRecDepth 4000

/-- Python `round` on a rational: round half to even (banker's rounding),
as used by `round(...)` in `servo.py` and `joystick.py`. -/
def pyRound (q : ℚ) : ℤ :=
  if q - (⌊q⌋ : ℚ) < 1/2 then ⌊q⌋
  else if 1/2 < q - (⌊q⌋ : ℚ) then ⌊q⌋ + 1
  else if ⌊q⌋ % 2 = 0 then ⌊q⌋ else ⌊q⌋ + 1

/-- Python `int(...)` applied to a nonnegative-or-negative rational:
truncation toward zero. -/
def pyInt (q : ℚ) : ℤ :=
  if q < 0 then -⌊-q⌋ else ⌊q⌋

theorem pyRound_intCast (n : ℤ) : pyRound (n : ℚ) = n := by
  simp [pyRound]

theorem floor_le_pyRound (q : ℚ) : ⌊q⌋ ≤ pyRound q := by
  unfold pyRound
  split
  · exact le_refl _
  · split
    · exact Int.le.intro 1 rfl
    · split
      · exact le_refl _
      · exact Int.le.intro 1 rfl

theorem pyRound_le_ceil (q : ℚ) : pyRound q ≤ ⌈q⌉ := by
  unfold pyRound
  split
  · exact Int.floor_le_ceil q
  · have hq : (⌊q⌋ : ℚ) < q := by
      by_contra hcon
      push_neg at hcon
      have h0 : q - (⌊q⌋ : ℚ) ≤ 0 := by linarith
      rename_i hr
      rw [not_lt] at hr
      linarith
    have hlt : ⌊q⌋ < ⌈q⌉ := by
      have h1 : q ≤ (⌈q⌉ : ℚ) := Int.le_ceil q
      have : (⌊q⌋ : ℚ) < (⌈q⌉ : ℚ) := lt_of_lt_of_le hq h1
      exact_mod_cast this
    have hsucc : ⌊q⌋ + 1 ≤ ⌈q⌉ := hlt
    split
    · exact hsucc
    · split
      · exact le_trans (Int.le.intro 1 rfl) hsucc
      · exact hsucc

theorem pyRound_nonneg {q : ℚ} (h : 0 ≤ q) : 0 ≤ pyRound q :=
  le_trans (by exact_mod_cast Int.floor_nonneg.mpr h) (floor_le_pyRound q)

theorem one_le_pyRound {q : ℚ} (h : 1 ≤ q) : 1 ≤ pyRound q := by
  have h1 : (1 : ℤ) ≤ ⌊q⌋ := by
    have := Int.le_floor.mpr (by exact_mod_cast h : ((1 : ℤ) : ℚ) ≤ q)
    exact this
  exact le_trans h1 (floor_le_pyRound q)

/-- `math_mix.clamp` -/
def clamp (v lo hi : ℤ) : ℤ :=
  if v < lo then lo
  else if v > hi then hi
  else v

/-- `math_mix.deadzone` -/
def deadzone (v dz : ℤ) : ℤ :=
  if |v| < dz then 0 else v

/-- `math_mix.mix_tank` -/
def mix_tank (x y : ℤ) : ℤ × ℤ :=
  (clamp (y + x) (-255) 255, clamp (y - x) (-255) 255)

theorem clamp_mem {v lo hi : ℤ} (h : lo ≤ hi) :
    lo ≤ clamp v lo hi ∧ clamp v lo hi ≤ hi := by
  unfold clamp
  split
  · exact ⟨le_refl _, h⟩
  · split
    · exact ⟨h, le_refl _⟩
    · rename_i h1 h2
      rw [not_lt] at h1
      rw [not_lt] at h2
      exact ⟨h1, h2⟩

theorem clamp_of_mem {v lo hi : ℤ} (h1 : lo ≤ v) (h2 : v ≤ hi) :
    clamp v lo hi = v := by
  unfold clamp
  rw [if_neg (not_lt.mpr h1), if_neg (not_lt.mpr h2)]

/-! ### String helpers

Structural (kernel-computable) counterparts of the Python string methods used
by the sources: `str.upper`, `str.lower`, `str.strip`, `str.split()`,
`" ".join`, `str.startswith`. -/

/-- `s.upper()` -/
def strUpper (s : String) : String := ⟨s.data.map Char.toUpper⟩

/-- `s.lower()` -/
def strLower (s : String) : String := ⟨s.data.map Char.toLower⟩

/-- `s.strip()` -/
def strTrim (s : String) : String :=
  ⟨((s.data.dropWhile Char.isWhitespace).reverse.dropWhile Char.isWhitespace).reverse⟩

/-- `s.startswith(pre)` -/
def strStartsWith (s pre : String) : Bool := pre.data.isPrefixOf s.data

def splitWsAux : List Char → List Char → List String
  | [], cur => if cur.isEmpty then [] else [String.mk cur.reverse]
  | c :: rest, cur =>
    if c.isWhitespace then
      if cur.isEmpty then splitWsAux rest []
      else String.mk cur.reverse :: splitWsAux rest []
    else splitWsAux rest (c :: cur)

/-- `s.split()` — split on runs of whitespace, no empty fields. -/
def pySplitWs (s : String) : List String := splitWsAux s.data []

/-- `" ".join(parts)` -/
def joinSpace : List String → String
  | [] => ""
  | [x] => x
  | x :: rest => x ++ " " ++ joinSpace rest

/-! ### `server/serial/protocol.py` -/

/-- `protocol.IGNORE_LINE_PREFIXES_UPPER` — unsolicited banner lines. -/
def IGNORE_LINE_PREFIXES_UPPER : List String :=
  ["OK READY", "OK PINS", "OK CMDS", "OK SERVO_PWR?", "OK START"]

/-- `protocol.sanitize_outgoing_line`: strip, drop leading BOM/replacement
chars, keep printable ASCII plus spaces, collapse internal whitespace. -/
def sanitize_outgoing_line (s : String) : String :=
  let t1 := strTrim s
  let t2 : String := ⟨t1.data.dropWhile (fun c => decide (c = '\uFEFF' ∨ c = '\uFFFD'))⟩
  let t3 : String := ⟨t2.data.filter (fun c => decide (c = ' ' ∨ (33 ≤ c.toNat ∧ c.toNat ≤ 126)))⟩
  joinSpace (pySplitWs t3)

/-- `protocol.infer_expect_prefixes_upper` — deterministic expected-reply
inference from the command verb. -/
def infer_expect_upper (cmd_line : String) : List String :=
  let clean := strTrim cmd_line
  if clean = "" then ["OK"]
  else
    let name := strUpper (strTrim ((pySplitWs clean).headD ""))
    if name = "PING" then ["OK PONG"]
    else if name = "SERVOPWR" then ["OK SERVO_PWR"]
    else if name = "TELEM" ∨ name = "TELEMETRY" then ["OK TELEM"]
    else if name = "SETAENGINE" ∨ name = "SETBENGINE" ∨ name = "SETALLENGINE" then
      ["OK " ++ name]
    else if name = "SETSERVO" then ["OK SETSERVO"]
    else if name = "SETSERVOS" then ["OK SETSERVOS"]
    else if name = "SERVOCENTER" ∨ name = "SERVO_CENTER" then ["OK SERVO_CENTER"]
    else if name = "ESTOP" then ["OK ESTOP"]
    else ["OK"]

/-! ### `server/serial/manager.py` — reply classification -/

/-- Classification of one received line inside `_wait_relevant_reply_sync`. -/
def line_is_ignored (s : String) : Bool :=
  IGNORE_LINE_PREFIXES_UPPER.any (fun q => strStartsWith (strUpper s) q)

def line_is_err (s : String) : Bool := strStartsWith (strUpper s) "ERR"

def line_matches (expect_upper : List String) (s : String) : Bool :=
  expect_upper.any (fun q => strStartsWith (strUpper s) q)

/-- Outcome of `SerialManager._wait_relevant_reply_sync`. -/
inductive ReplyOutcome where
  | matched (reply : String)
  | protocolError (sent : String) (reply : String)
  | timeout (sent : String) (expect_upper : List String) (seen_shown : List String)
  deriving DecidableEq, Repr

/-- `SerialManager._wait_relevant_reply_sync`.  `lines` is the sequence of
nonempty frames the device delivers before `max_wait_s` elapses (an exhausted
list models the deadline passing); `seen` is the accumulator of lines kept as
unexpected evidence, `maxLines` the `max_lines` bound of the Python loop. -/
def wait_relevant_reply (sent : String) (expect_upper : List String)
    (maxLines : ℕ) (lines : List String) (seen : List String) : ReplyOutcome :=
  match lines with
  | [] => .timeout sent expect_upper (seen.take 10)
  | s :: rest =>
    if maxLines ≤ seen.length then .timeout sent expect_upper (seen.take 10)
    else if line_is_ignored s then wait_relevant_reply sent expect_upper maxLines rest seen
    else if line_is_err s then .protocolError sent s
    else
      let seen' := seen ++ [s]
      if line_matches expect_upper s then .matched s
      else wait_relevant_reply sent expect_upper maxLines rest seen'

/-! ### `server/serial/manager.py` — SerialManager state and commands -/

/-- The mutable fields of `SerialManager` that the safety layer reads:
whether the link is open, and the activity timestamps maintained by
`_mark_activity_line`. -/
structure ChannelState where
  connected : Bool
  last_any_actuator_ts : ℚ
  last_motor_ts : ℚ
  last_servo_ts : ℚ
  deriving DecidableEq, Repr

/-- `SerialManager._mark_activity_line` at monotonic time `now`. -/
def mark_activity_line (st : ChannelState) (now : ℚ) (line : String) : ChannelState :=
  let up := strUpper (strTrim line)
  if up = "" then st
  else if strStartsWith up "SETAENGINE" ∨ strStartsWith up "SETBENGINE" ∨
      strStartsWith up "SETALLENGINE" then
    { st with last_any_actuator_ts := now, last_motor_ts := now }
  else if strStartsWith up "SETSERVO" ∨ strStartsWith up "SETSERVOS" ∨
      strStartsWith up "SERVOCENTER" then
    { st with last_any_actuator_ts := now, last_servo_ts := now }
  else if strStartsWith up "SERVOATTACH" ∨ strStartsWith up "SERVODETACH" then
    { st with last_any_actuator_ts := now, last_servo_ts := now }
  else st

/-- Errors raised out of `_send_cmd_sync` / `send_cmd`. -/
inductive SerialErr where
  | emptyCommand
  | protocolError (sent : String) (reply : String)
  | timeout (sent : String) (expect_upper : List String) (seen_shown : List String)
  deriving DecidableEq, Repr

/-- `SerialManager._send_cmd_sync`: connect, sanitize, mark activity, write
the line, then wait for the relevant reply.  `device` is the list of nonempty
frames the peer delivers within the wait budget.  Returns the new state, the
wire lines actually written, and the reply or the raised error. -/
def send_cmd_sync (st : ChannelState) (now : ℚ) (line : String)
    (expect? : Option (List String)) (maxLines : ℕ) (markActivity : Bool)
    (device : List String) : ChannelState × List String × Except SerialErr String :=
  let st1 := { st with connected := true }
  let clean := sanitize_outgoing_line line
  if clean = "" then (st1, [], .error .emptyCommand)
  else
    let st2 := if markActivity then mark_activity_line st1 now clean else st1
    let expect_upper := expect?.getD (infer_expect_upper clean)
    match wait_relevant_reply clean expect_upper maxLines device [] with
    | .matched r => (st2, [clean], .ok r)
    | .protocolError s r => (st2, [clean], .error (.protocolError s r))
    | .timeout s e shown => (st2, [clean], .error (.timeout s e shown))

/-- `SerialManager.close` (the state effect). -/
def closeChannel (st : ChannelState) : ChannelState := { st with connected := false }

/-- `SerialManager.send_cmd`: run `_send_cmd_sync` under the channel lock and,
on any raised error, close the link iff `close_on_error` is set. -/
def send_cmd (st : ChannelState) (now : ℚ) (line : String)
    (expect? : Option (List String)) (close_on_error markActivity : Bool)
    (device : List String) : ChannelState × List String × Except SerialErr String :=
  match send_cmd_sync st now line expect? 80 markActivity device with
  | (st1, issued, .ok r) => (st1, issued, .ok r)
  | (st1, issued, .error e) =>
    (if close_on_error then closeChannel st1 else st1, issued, .error e)

/-- `SerialManager.send_cmds`: dispatch a batch under one lock hold, marking
activity per line when requested, inferring expected prefixes per line, and
closing the link on the first failure.  `device` holds one reply-frame list
per exchange. -/
def send_cmds (st : ChannelState) (now : ℚ) (lines : List String)
    (markActivity : Bool) (device : List (List String)) :
    ChannelState × List String × Except SerialErr (List String) :=
  match lines with
  | [] => (st, [], .ok [])
  | l :: rest =>
    let st1 := if markActivity then mark_activity_line st now l else st
    let exp := infer_expect_upper l
    match send_cmd_sync st1 now l (some exp) 80 false (device.headD []) with
    | (st2, issued, .error e) => (closeChannel st2, issued, .error e)
    | (st2, issued, .ok r) =>
      match send_cmds st2 now rest markActivity device.tail with
      | (st3, issued2, .ok rs) => (st3, issued ++ issued2, .ok (r :: rs))
      | (st3, issued2, .error e) => (st3, issued ++ issued2, .error e)

/-! ### `server/services/servo.py` -/

/-- First-match association-list lookup, modelling `dict.get` on the
id-keyed Python dicts (an update prepends, so the newest binding wins). -/
def alookup {α : Type} (k : ℤ) : List (ℤ × α) → Option α
  | [] => none
  | (a, b) :: rest => if k = a then some b else alookup k rest

/-- The fields of `core/config.py :: Settings` consumed by the servo service
and the watchdog. -/
structure ServoSettings where
  servo_count : ℤ
  servo_default_min_deg : ℤ
  servo_default_max_deg : ℤ
  servo_center_deg : ℤ
  servo_limits : List (ℤ × ℤ × ℤ)
  servo_safe_pose : List (ℤ × ℤ)
  servo_slew_rate_dps : ℚ
  servo_max_cmd_hz : ℚ
  servo_rate_limit_mode : String

/-- `servo.ServoRuntimeState` — per-id last degrees and timestamps. -/
structure ServoRuntimeState where
  last_deg : List (ℤ × ℤ)
  last_update_ts : List (ℤ × ℚ)
  last_cmd_ts : List (ℤ × ℚ)
  deriving DecidableEq, Repr

/-- `servo._validate_servo_id` as a predicate: True iff the id is rejected. -/
def servo_id_out_of_range (s : ServoSettings) (servo_id : ℤ) : Prop :=
  servo_id < 1 ∨ s.servo_count < servo_id

instance (s : ServoSettings) (i : ℤ) : Decidable (servo_id_out_of_range s i) := by
  unfold servo_id_out_of_range
  infer_instance

/-- `servo._limits_for` — resolve per-id limits, clamp into 0..180, swap if
inverted. -/
def limits_for (s : ServoSettings) (servo_id : ℤ) : ℤ × ℤ :=
  let p := (alookup servo_id s.servo_limits).getD
    (s.servo_default_min_deg, s.servo_default_max_deg)
  let lo := clamp p.1 0 180
  let hi := clamp p.2 0 180
  if lo > hi then (hi, lo) else (lo, hi)

/-- `servo._apply_slew_rate`. -/
def apply_slew_rate (s : ServoSettings) (st : ServoRuntimeState)
    (servo_id target_deg : ℤ) (now : ℚ) : ℤ :=
  let rate := s.servo_slew_rate_dps
  if rate ≤ 0 then target_deg
  else
    match alookup servo_id st.last_deg with
    | none => target_deg
    | some last =>
      let last_ts := (alookup servo_id st.last_update_ts).getD now
      let dt0 := now - last_ts
      let dt := if dt0 ≤ 0 then 1/50 else dt0
      let max_delta0 := rate * dt
      let max_delta := if max_delta0 < 1 then 1 else max_delta0
      let delta := target_deg - last
      if |(delta : ℚ)| ≤ max_delta then target_deg
      else
        let step := pyRound max_delta
        last + (if delta > 0 then step else -step)

/-- Outcome of `servo._rate_limit_or_fail`. -/
inductive RateOutcome where
  | proceed
  | sleepFor (wait_s : ℚ)
  | reject (retry_after_ms : ℤ) (retry_after_header_s : ℤ)
  deriving DecidableEq, Repr

/-- `servo._rate_limit_or_fail` at dispatch time `now`. -/
def rate_limit_or_fail (s : ServoSettings) (st : ServoRuntimeState)
    (servo_id : ℤ) (now : ℚ) : RateOutcome :=
  let hz := s.servo_max_cmd_hz
  if hz ≤ 0 then .proceed
  else
    let min_interval := 1 / max 1 hz
    let last := (alookup servo_id st.last_cmd_ts).getD 0
    let dt := now - last
    if min_interval ≤ dt then .proceed
    else
      let wait_s := min_interval - dt
      let mode := strTrim (strLower s.servo_rate_limit_mode)
      if mode = "sleep" then .sleepFor wait_s
      else .reject (pyRound (wait_s * 1000)) (max 1 (pyInt wait_s))

/-- Errors raised out of `servo.set_servo_deg`. -/
inductive ServoErr where
  | validation (servo_id : ℤ)
  | rateLimited (servo_id : ℤ) (retry_after_ms : ℤ)
  | serial (e : SerialErr)
  deriving DecidableEq, Repr

/-- `schemas/servo.py :: ServoSetOut`. -/
structure ServoSetOut where
  id : ℤ
  requested_deg : ℤ
  applied_deg : ℤ
  sent : String
  reply : String
  deriving DecidableEq, Repr

/-- `servo.set_servo_deg`.  `now` is the slew-shaping clock reading, `nowRl`
the rate-limit reading taken just after, `now2` the reading after a successful
dispatch; `device` is the peer's reply frames for the one exchange. -/
def set_servo_deg (s : ServoSettings) (st : ServoRuntimeState) (ch : ChannelState)
    (servo_id deg : ℤ) (now nowRl now2 : ℚ) (device : List String) :
    ServoRuntimeState × ChannelState × List String × Except ServoErr ServoSetOut :=
  if servo_id_out_of_range s servo_id then (st, ch, [], .error (.validation servo_id))
  else
    let p := limits_for s servo_id
    let requested := deg
    let target0 := clamp requested p.1 p.2
    let target := apply_slew_rate s st servo_id target0 now
    match rate_limit_or_fail s st servo_id nowRl with
    | .reject retry_ms _hdr => (st, ch, [], .error (.rateLimited servo_id retry_ms))
    | _ =>
      let line := s!"SetServo {servo_id} {target}"
      let exp := infer_expect_upper line
      match send_cmd ch now line (some exp) true true device with
      | (ch1, issued, .error e) => (st, ch1, issued, .error (.serial e))
      | (ch1, issued, .ok reply) =>
        let st1 : ServoRuntimeState :=
          { last_deg := (servo_id, target) :: st.last_deg
            last_update_ts := (servo_id, now2) :: st.last_update_ts
            last_cmd_ts := (servo_id, now2) :: st.last_cmd_ts }
        (st1, ch1, issued,
          .ok { id := servo_id, requested_deg := requested, applied_deg := target
                sent := line, reply := reply })

/-- `servo.build_center_items`. -/
def build_center_items (s : ServoSettings) : List (ℤ × ℤ) :=
  (List.range s.servo_count.toNat).map (fun i =>
    let sid : ℤ := (i : ℤ) + 1
    (sid, (alookup sid s.servo_safe_pose).getD s.servo_center_deg))

/-! ### `server/services/joystick.py` -/

/-- The pure part of `joystick.process_joystick`: deadzone both axes, scale
with round-to-nearest, tank-mix.  Returns the two motor values. -/
def joystick_values (x y dz : ℤ) (scale : ℚ) : ℤ × ℤ :=
  let x1 := deadzone x dz
  let y1 := deadzone y dz
  let x2 := pyRound ((x1 : ℚ) * scale)
  let y2 := pyRound ((y1 : ℚ) * scale)
  mix_tank x2 y2

/-- `schemas/joystick.py :: JoystickOut` (wire-relevant fields). -/
structure JoystickOut where
  motor_a : ℤ
  motor_b : ℤ
  sent : List String
  replies : List String
  deriving DecidableEq, Repr

/-- `joystick.process_joystick`: compute motor values, dispatch the two
motor-set lines as one `send_cmds` batch. -/
def process_joystick (ch : ChannelState) (now : ℚ) (x y dz : ℤ) (scale : ℚ)
    (device : List (List String)) :
    ChannelState × List String × Except SerialErr JoystickOut :=
  let ab := joystick_values x y dz scale
  let lines := [s!"SetAEngine {ab.1}", s!"SetBEngine {ab.2}"]
  match send_cmds ch now lines true device with
  | (ch1, issued, .ok replies) =>
    (ch1, issued, .ok { motor_a := ab.1, motor_b := ab.2, sent := lines, replies := replies })
  | (ch1, issued, .error e) => (ch1, issued, .error e)

/-! ### `server/services/actions.py` and `server/api/routes/actions.py` -/

/-- `actions._a_b`. -/
def a_b (a b : ℤ) : List String := [s!"SetAEngine {a}", s!"SetBEngine {b}"]

/-- The `ACTIONS` table: each name's `build` closure as a pure function of
the (clamped) power.  `int(p * 0.4)` and `int(p * 0.3)` truncate toward
zero. -/
def action_build (action : String) (p : ℤ) : Option (List String) :=
  if action = "stop" then some (a_b 0 0)
  else if action = "forward" then some (a_b p p)
  else if action = "backward" then some (a_b (-p) (-p))
  else if action = "turn_left" then some (a_b (pyInt ((p : ℚ) * (2/5))) p)
  else if action = "turn_right" then some (a_b p (pyInt ((p : ℚ) * (2/5))))
  else if action = "spin_left" then some (a_b (-p) p)
  else if action = "spin_right" then some (a_b p (-p))
  else if action = "slow_mode" then
    some (a_b (pyInt ((p : ℚ) * (3/10))) (pyInt ((p : ℚ) * (3/10))))
  else none

/-- Errors surfaced at the route layer. -/
inductive ApiErr where
  | estopLocked
  | unknownAction (action : String)
  | serial (e : SerialErr)
  | servo (e : ServoErr)
  deriving DecidableEq, Repr

/-- `actions.run_action`: clamp power, look the action up, dispatch its two
lines as one batch. -/
def run_action (ch : ChannelState) (now : ℚ) (action : String) (power : ℤ)
    (device : List (List String)) :
    ChannelState × List String × Except ApiErr (List String × List String) :=
  let p := clamp power 0 255
  match action_build action p with
  | none => (ch, [], .error (.unknownAction action))
  | some lines =>
    match send_cmds ch now lines true device with
    | (ch1, issued, .ok replies) => (ch1, issued, .ok (lines, replies))
    | (ch1, issued, .error e) => (ch1, issued, .error (.serial e))

/-- `api/deps.py :: ensure_not_estopped`. -/
def ensure_not_estopped (estop : Bool) : Except ApiErr Unit :=
  if estop then .error .estopLocked else .ok ()

/-- `api/routes/actions.py :: actions_run`: E-STOP gate, run the maneuver
and, when `duration_ms > 0` and the maneuver dispatch returned, run `stop`.
An exception from the maneuver propagates immediately (the `try` body is
abandoned), so no stop is dispatched on that path. -/
def actions_run (estop : Bool) (ch : ChannelState) (now : ℚ) (action : String)
    (power duration_ms : ℤ) (device deviceStop : List (List String)) :
    ChannelState × List String × Except ApiErr (List String × List String) :=
  match ensure_not_estopped estop with
  | .error e => (ch, [], .error e)
  | .ok _ =>
    match run_action ch now action power device with
    | (ch1, issued1, .error e) => (ch1, issued1, .error e)
    | (ch1, issued1, .ok sr) =>
      if 0 < duration_ms then
        match run_action ch1 now "stop" 0 deviceStop with
        | (ch2, issued2, .ok sr2) =>
          (ch2, issued1 ++ issued2, .ok (sr.1 ++ sr2.1, sr.2 ++ sr2.2))
        | (ch2, issued2, .error e) => (ch2, issued1 ++ issued2, .error e)
      else (ch1, issued1, .ok sr)

/-! ### `server/api/routes/motor.py` -/

/-- `motor.motor` route: E-STOP gate, then one `send_cmd` with inferred
expected prefixes. -/
def motor_route (estop : Bool) (ch : ChannelState) (now : ℚ)
    (cmd : String) (speed : ℤ) (device : List String) :
    ChannelState × List String × Except ApiErr (String × String) :=
  match ensure_not_estopped estop with
  | .error e => (ch, [], .error e)
  | .ok _ =>
    let line := s!"{cmd} {speed}"
    let exp := infer_expect_upper line
    match send_cmd ch now line (some exp) true true device with
    | (ch1, issued, .ok reply) => (ch1, issued, .ok (line, reply))
    | (ch1, issued, .error e) => (ch1, issued, .error (.serial e))

/-- `servo.py :: servo_set` route: E-STOP gate, then `set_servo_deg`. -/
def servo_route (estop : Bool) (s : ServoSettings) (st : ServoRuntimeState)
    (ch : ChannelState) (servo_id deg : ℤ) (now nowRl now2 : ℚ)
    (device : List String) :
    ServoRuntimeState × ChannelState × List String × Except ApiErr ServoSetOut :=
  match ensure_not_estopped estop with
  | .error e => (st, ch, [], .error e)
  | .ok _ =>
    match set_servo_deg s st ch servo_id deg now nowRl now2 device with
    | (st1, ch1, issued, .ok out) => (st1, ch1, issued, .ok out)
    | (st1, ch1, issued, .error e) => (st1, ch1, issued, .error (.servo e))

/-! ### `server/api/routes/safety.py` — the E-STOP latch -/

/-- `safety.estop_reset` (the latch effect: `app.state.estop = False`). -/
def estop_reset_latch (_estop : Bool) : Bool := false

/-- `safety.estop_on` (the latch effect: `app.state.estop = True`). -/
def estop_set_latch (_estop : Bool) : Bool := true

/-! ### `server/core/watchdog.py` -/

/-- The watchdog-relevant Settings fields. -/
structure WatchdogSettings where
  watchdog_enabled : Bool
  watchdog_tick_s : ℚ
  watchdog_motor_idle_s : ℚ
  watchdog_servo_idle_s : ℚ
  watchdog_servo_safe_enabled : Bool

/-- The loop-local flags of `watchdog_loop`. -/
structure WdState where
  motor_applied : Bool
  servo_applied : Bool
  deriving DecidableEq, Repr

/-- `watchdog._try_stop_motors` — a stop batch sent with
`mark_activity=False`; errors are swallowed (returned as `false`). -/
def try_stop_motors (ch : ChannelState) (now : ℚ) (devM : List (List String)) :
    ChannelState × List String × Bool :=
  match send_cmds ch now ["SetAEngine 0", "SetBEngine 0"] false devM with
  | (ch1, issued, .ok _) => (ch1, issued, true)
  | (ch1, issued, .error _) => (ch1, issued, false)

/-- `watchdog._try_servo_safe_pose` — refuses under E-STOP, otherwise drives
every channel to its safe pose with `mark_activity=False`. -/
def try_servo_safe_pose (ss : ServoSettings) (estop : Bool) (ch : ChannelState)
    (now : ℚ) (devS : List (List String)) : ChannelState × List String × Bool :=
  if estop then (ch, [], false)
  else
    let lines := (build_center_items ss).map (fun p => s!"SetServo {p.1} {p.2}")
    match send_cmds ch now lines false devS with
    | (ch1, issued, .ok _) => (ch1, issued, true)
    | (ch1, issued, .error _) => (ch1, issued, false)

/-- The motor-idle condition checked by `watchdog_loop`:
`motor_idle > 0 and mgr.last_motor_ts > 0 and now - last_motor_ts >= idle`. -/
def motor_idle_cond (ws : WatchdogSettings) (ch : ChannelState) (now : ℚ) : Prop :=
  0 < ws.watchdog_motor_idle_s ∧ 0 < ch.last_motor_ts ∧
    ws.watchdog_motor_idle_s ≤ now - ch.last_motor_ts

instance (ws : WatchdogSettings) (ch : ChannelState) (now : ℚ) :
    Decidable (motor_idle_cond ws ch now) := by
  unfold motor_idle_cond
  infer_instance

/-- The servo-idle condition checked by `watchdog_loop`. -/
def servo_idle_cond (ws : WatchdogSettings) (ch : ChannelState) (now : ℚ) : Prop :=
  0 < ws.watchdog_servo_idle_s ∧ 0 < ch.last_servo_ts ∧
    ws.watchdog_servo_idle_s ≤ now - ch.last_servo_ts

instance (ws : WatchdogSettings) (ch : ChannelState) (now : ℚ) :
    Decidable (servo_idle_cond ws ch now) := by
  unfold servo_idle_cond
  infer_instance

/-- One iteration of the `while True` body of `watchdog_loop`, at tick time
`now`.  Returns the new flags, channel state, and the wire lines issued. -/
def watchdog_tick (ws : WatchdogSettings) (ss : ServoSettings) (estop : Bool)
    (wd : WdState) (ch : ChannelState) (now : ℚ)
    (devM devS : List (List String)) : WdState × ChannelState × List String :=
  if ¬ ws.watchdog_enabled then (wd, ch, [])
  else
    let step1 : WdState × ChannelState × List String :=
      if motor_idle_cond ws ch now then
        if wd.motor_applied then (wd, ch, [])
        else
          let r := try_stop_motors ch now devM
          ({ wd with motor_applied := true }, r.1, r.2.1)
      else ({ wd with motor_applied := false }, ch, [])
    let wd1 := step1.1
    let ch1 := step1.2.1
    let out1 := step1.2.2
    if ws.watchdog_servo_safe_enabled then
      if servo_idle_cond ws ch1 now then
        if wd1.servo_applied then (wd1, ch1, out1)
        else
          let r := try_servo_safe_pose ss estop ch1 now devS
          ({ wd1 with servo_applied := true }, r.1, out1 ++ r.2.1)
      else ({ wd1 with servo_applied := false }, ch1, out1)
    else (wd1, ch1, out1)

/-- A run of consecutive watchdog ticks: each entry is the tick's monotonic
time and the device's reply frames for the motor and servo batches. -/
def watchdog_run (ws : WatchdogSettings) (ss : ServoSettings) (estop : Bool)
    (wd : WdState) (ch : ChannelState) :
    List (ℚ × List (List String) × List (List String)) →
    WdState × ChannelState × List String
  | [] => (wd, ch, [])
  | t :: rest =>
    let r1 := watchdog_tick ws ss estop wd ch t.1 t.2.1 t.2.2
    let r2 := watchdog_run ws ss estop r1.1 r1.2.1 rest
    (r2.1, r2.2.1, r1.2.2 ++ r2.2.2)

/-! ### `server/api/routes/ws_joystick.py` — the sender activity -/

/-- The sender-loop-local state of one WebSocket session. -/
structure WsSessionState where
  estop_stop_sent : Bool
  sent_seq : ℕ
  last_send : ℚ
  deriving DecidableEq, Repr

/-- A frame emitted to the WebSocket client by the dispatch activity. -/
inductive WsMsg where
  | joyAck (seq : ℕ) (motor_a motor_b : ℤ) (sent replies : List String)
  | errEstop (seq : ℕ)
  | errInternal
  deriving DecidableEq, Repr

/-- `ws_joystick.safe_stop` — best-effort stop batch, gated on
`ws_stop_on_close`; errors are swallowed. -/
def ws_safe_stop (stop_on_close : Bool) (ch : ChannelState) (now : ℚ)
    (device : List (List String)) : ChannelState × List String :=
  if ¬ stop_on_close then (ch, [])
  else
    let r := send_cmds ch now ["SetAEngine 0", "SetBEngine 0"] true device
    (r.1, r.2.1)

/-- One dispatch of the newest sample inside `sender_loop`: the body of the
inner drain loop, after the rate-limit sleep.  Under E-STOP it does not call
the joystick pipeline: it sends at most the one-shot safe stop and reports an
estop error frame to the client. -/
def ws_dispatch_one (stop_on_close estop : Bool) (ws : WsSessionState)
    (ch : ChannelState) (now : ℚ) (x y dz : ℤ) (scale : ℚ) (targetSeq : ℕ)
    (device : List (List String)) :
    WsSessionState × ChannelState × List String × WsMsg :=
  if estop then
    let stopped : ChannelState × List String :=
      if ¬ ws.estop_stop_sent then ws_safe_stop stop_on_close ch now device
      else (ch, [])
    let ws1 : WsSessionState :=
      { estop_stop_sent := true, sent_seq := targetSeq, last_send := now }
    (ws1, stopped.1, stopped.2, .errEstop ws1.sent_seq)
  else
    let ws0 := if ws.estop_stop_sent then { ws with estop_stop_sent := false } else ws
    match process_joystick ch now x y dz scale device with
    | (ch1, issued, .ok out) =>
      ({ ws0 with sent_seq := targetSeq, last_send := now }, ch1, issued,
        .joyAck targetSeq out.motor_a out.motor_b out.sent out.replies)
    | (ch1, issued, .error _) => (ws0, ch1, issued, .errInternal)

/-! ### Concrete fixtures used by the examples of the spec -/

deriving instance DecidableEq for Except

/-- A freshly constructed `SerialManager` (not yet connected, zero activity
timestamps). -/
def ch0 : ChannelState := ⟨false, 0, 0, 0⟩

/-- A connected channel with zero activity timestamps. -/
def chOpen : ChannelState := ⟨true, 0, 0, 0⟩

/-- A `Settings` instance as in the spec's §8 examples: five servos, default
0..180 range, slew rate 30 deg/s, max 25 commands/s, reject mode. -/
def demoSettings : ServoSettings :=
  { servo_count := 5, servo_default_min_deg := 0, servo_default_max_deg := 180
    servo_center_deg := 90, servo_limits := [], servo_safe_pose := []
    servo_slew_rate_dps := 30, servo_max_cmd_hz := 25
    servo_rate_limit_mode := "reject" }

/-! ### Channel-level helper lemmas -/

theorem send_cmd_sync_issued_sub (st : ChannelState) (now : ℚ) (line : String)
    (expect? : Option (List String)) (maxLines : ℕ) (mark : Bool)
    (device : List String) :
    ∀ l ∈ (send_cmd_sync st now line expect? maxLines mark device).2.1,
      l = sanitize_outgoing_line line := by
  intro l hl
  unfold send_cmd_sync at hl
  by_cases h : sanitize_outgoing_line line = ""
  · rw [if_pos h] at hl
    simp at hl
  · rw [if_neg h] at hl
    dsimp only at hl
    split at hl <;> simp_all

theorem send_cmd_sync_issued_eq (st : ChannelState) (now : ℚ) (line : String)
    (expect? : Option (List String)) (maxLines : ℕ) (mark : Bool)
    (device : List String) (h : sanitize_outgoing_line line ≠ "") :
    (send_cmd_sync st now line expect? maxLines mark device).2.1 =
      [sanitize_outgoing_line line] := by
  unfold send_cmd_sync
  rw [if_neg h]
  dsimp only
  split <;> rfl

theorem send_cmd_sync_no_mark (st : ChannelState) (now : ℚ) (line : String)
    (expect? : Option (List String)) (maxLines : ℕ) (device : List String) :
    (send_cmd_sync st now line expect? maxLines false device).1 =
      { st with connected := true } := by
  unfold send_cmd_sync
  dsimp only
  by_cases h : sanitize_outgoing_line line = ""
  · rw [if_pos h]
  · rw [if_neg h]
    split <;> rfl

theorem send_cmds_issued_sub (lines : List String) :
    ∀ (st : ChannelState) (now : ℚ) (mark : Bool) (device : List (List String)),
      ∀ l ∈ (send_cmds st now lines mark device).2.1,
        ∃ l0 ∈ lines, l = sanitize_outgoing_line l0 := by
  induction lines with
  | nil => intro st now mark device l hl; simp [send_cmds] at hl
  | cons x rest ih =>
    intro st now mark device l hl
    unfold send_cmds at hl
    dsimp only at hl
    split at hl
    · rename_i st2 issued e heq
      refine ⟨x, by simp, ?_⟩
      have := send_cmd_sync_issued_sub (if mark then mark_activity_line st now x else st)
        now x (some (infer_expect_upper x)) 80 false (device.headD [])
      rw [heq] at this
      simp only at hl
      exact this l hl
    · rename_i st2 issued r heq
      have hsub := send_cmd_sync_issued_sub (if mark then mark_activity_line st now x else st)
        now x (some (infer_expect_upper x)) 80 false (device.headD [])
      rw [heq] at hsub
      split at hl <;>
      · rename_i st3 issued2 _ heq2
        simp only at hl
        rcases List.mem_append.mp hl with h1 | h2
        · exact ⟨x, by simp, hsub l h1⟩
        · obtain ⟨l0, hl0, he⟩ := ih st2 now mark device.tail l (by rw [heq2]; exact h2)
          exact ⟨l0, by simp [hl0], he⟩

theorem send_cmds_no_mark_ts (lines : List String) :
    ∀ (st : ChannelState) (now : ℚ) (device : List (List String)),
      (send_cmds st now lines false device).1.last_motor_ts = st.last_motor_ts ∧
      (send_cmds st now lines false device).1.last_servo_ts = st.last_servo_ts ∧
      (send_cmds st now lines false device).1.last_any_actuator_ts =
        st.last_any_actuator_ts := by
  induction lines with
  | nil => intro st now device; simp [send_cmds]
  | cons x rest ih =>
    intro st now device
    unfold send_cmds
    dsimp only
    split
    · rename_i st2 issued e heq
      have hst2 : st2 = { st with connected := true } := by
        have h := send_cmd_sync_no_mark (if false = true then mark_activity_line st now x else st)
          now x (some (infer_expect_upper x)) 80 (device.headD [])
        rw [heq] at h
        exact h
      simp [closeChannel, hst2]
    · rename_i st2 issued r heq
      have hst2 : st2 = { st with connected := true } := by
        have h := send_cmd_sync_no_mark (if false = true then mark_activity_line st now x else st)
          now x (some (infer_expect_upper x)) 80 (device.headD [])
        rw [heq] at h
        exact h
      have hts := ih st2 now device.tail
      split <;>
      · rename_i st3 issued2 _ heq2
        rw [heq2] at hts
        simp only
        rw [hst2] at hts
        exact hts

/-- Everything the Timeout raised by `_wait_relevant_reply_sync` carries:
the sent line, the expected prefix set, and at most ten lines, each of which
was delivered by the device (or already accumulated) and classified
unexpected. -/
theorem wait_timeout_payload (sent : String) (expect_upper : List String)
    (maxLines : ℕ) :
    ∀ (lines seen : List String) (s : String) (e shown : List String),
      wait_relevant_reply sent expect_upper maxLines lines seen =
        .timeout s e shown →
      s = sent ∧ e = expect_upper ∧ shown.length ≤ 10 ∧
      (∀ l ∈ shown, l ∈ seen ∨ (l ∈ lines ∧ line_is_ignored l = false ∧
        line_is_err l = false ∧ line_matches expect_upper l = false)) := by
  intro lines
  induction lines with
  | nil =>
    intro seen s e shown h
    simp only [wait_relevant_reply, ReplyOutcome.timeout.injEq] at h
    obtain ⟨h1, h2, h3⟩ := h
    refine ⟨h1.symm, h2.symm, ?_, ?_⟩
    · rw [← h3]
      exact List.length_take_le 10 seen
    · intro l hl
      rw [← h3] at hl
      exact Or.inl (List.take_subset 10 seen hl)
  | cons x rest ih =>
    intro seen s e shown h
    rw [wait_relevant_reply] at h
    by_cases hcap : maxLines ≤ seen.length
    · rw [if_pos hcap] at h
      simp only [ReplyOutcome.timeout.injEq] at h
      obtain ⟨h1, h2, h3⟩ := h
      refine ⟨h1.symm, h2.symm, ?_, ?_⟩
      · rw [← h3]
        exact List.length_take_le 10 seen
      · intro l hl
        rw [← h3] at hl
        exact Or.inl (List.take_subset 10 seen hl)
    · rw [if_neg hcap] at h
      by_cases hig : line_is_ignored x
      · rw [if_pos hig] at h
        obtain ⟨h1, h2, h3, h4⟩ := ih seen s e shown h
        refine ⟨h1, h2, h3, ?_⟩
        intro l hl
        rcases h4 l hl with hc | ⟨hm, hf⟩
        · exact Or.inl hc
        · exact Or.inr ⟨List.mem_cons_of_mem x hm, hf⟩
      · rw [if_neg hig] at h
        by_cases herr : line_is_err x
        · rw [if_pos herr] at h
          simp at h
        · rw [if_neg herr] at h
          dsimp only at h
          by_cases hm : line_matches expect_upper x
          · rw [if_pos hm] at h
            simp at h
          · rw [if_neg hm] at h
            obtain ⟨h1, h2, h3, h4⟩ := ih (seen ++ [x]) s e shown h
            refine ⟨h1, h2, h3, ?_⟩
            intro l hl
            rcases h4 l hl with hc | ⟨hmem, hf⟩
            · rcases List.mem_append.mp hc with hc1 | hc2
              · exact Or.inl hc1
              · have hx : l = x := by simpa using hc2
                subst hx
                exact Or.inr ⟨List.mem_cons_self l rest,
                  Bool.eq_false_iff.mpr hig, Bool.eq_false_iff.mpr herr,
                  Bool.eq_false_iff.mpr hm⟩
            · exact Or.inr ⟨List.mem_cons_of_mem x hmem, hf⟩

/-- With `close_on_error = true` (the default), any raised error leaves the
channel closed. -/
theorem send_cmd_closes_on_error (st : ChannelState) (now : ℚ) (line : String)
    (expect? : Option (List String)) (mark : Bool) (device : List String)
    (e : SerialErr)
    (h : (send_cmd st now line expect? true mark device).2.2 = .error e) :
    (send_cmd st now line expect? true mark device).1.connected = false := by
  rcases hsc : send_cmd_sync st now line expect? 80 mark device with ⟨st1, issued, r⟩
  unfold send_cmd at h ⊢
  rw [hsc] at h ⊢
  cases r with
  | ok v => simp at h
  | error e2 => rfl

/-- `send_cmds` closes the channel on the first failure. -/
theorem send_cmds_closes_on_error (lines : List String) :
    ∀ (st : ChannelState) (now : ℚ) (mark : Bool) (device : List (List String))
      (e : SerialErr),
      (send_cmds st now lines mark device).2.2 = .error e →
      (send_cmds st now lines mark device).1.connected = false := by
  induction lines with
  | nil => intro st now mark device e h; simp [send_cmds] at h
  | cons x rest ih =>
    intro st now mark device e h
    unfold send_cmds at h ⊢
    dsimp only at h ⊢
    split at h
    · rfl
    · rename_i st2 issued r heq
      split at h
      · simp at h
      · rename_i st3 issued2 e3 heq2
        have := ih st2 now mark device.tail e3 (by rw [heq2])
        rw [heq2] at this
        exact this

/-! ### Claim C2 -/

/-- C2: `CommandChannel.send` classifies each received line, in arrival
order: discarded when its upper-cased form starts with a known banner prefix
(waiting continues), a raised ProtocolError carrying the sent line and the
reply when it starts with ERR, the returned match when it starts with any
expected prefix, and otherwise recorded as unexpected evidence while waiting
continues; in particular `send("PING")` against a device replying
`"OK READY"` then `"OK PONG"` returns `"OK PONG"`. -/
theorem claim_C2 (sent : String) (expect_upper : List String) (maxLines : ℕ)
    (s : String) (rest seen : List String) (ch : ChannelState)
    (hlen : seen.length < maxLines) :
    (line_is_ignored s = true →
      wait_relevant_reply sent expect_upper maxLines (s :: rest) seen =
        wait_relevant_reply sent expect_upper maxLines rest seen) ∧
    (line_is_ignored s = false → line_is_err s = true →
      wait_relevant_reply sent expect_upper maxLines (s :: rest) seen =
        .protocolError sent s) ∧
    (line_is_ignored s = false → line_is_err s = false →
      line_matches expect_upper s = true →
      wait_relevant_reply sent expect_upper maxLines (s :: rest) seen =
        .matched s) ∧
    (line_is_ignored s = false → line_is_err s = false →
      line_matches expect_upper s = false →
      wait_relevant_reply sent expect_upper maxLines (s :: rest) seen =
        wait_relevant_reply sent expect_upper maxLines rest (seen ++ [s])) ∧
    (send_cmd ch 0 "PING" none true true ["OK READY", "OK PONG"]).2.2 =
      .ok "OK PONG" := by
  have hcap : ¬ maxLines ≤ seen.length := not_le.mpr hlen
  refine ⟨?_, ?_, ?_, ?_, ?_⟩
  · intro hig
    rw [wait_relevant_reply, if_neg hcap, if_pos hig]
  · intro hig herr
    rw [wait_relevant_reply, if_neg hcap, if_neg (by simp [hig]), if_pos herr]
  · intro hig herr hm
    rw [wait_relevant_reply, if_neg hcap, if_neg (by simp [hig]),
      if_neg (by simp [herr])]
    dsimp only
    rw [if_pos hm]
  · intro hig herr hm
    rw [wait_relevant_reply, if_neg hcap, if_neg (by simp [hig]),
      if_neg (by simp [herr])]
    dsimp only
    rw [if_neg (by simp [hm])]
  · have hsan : sanitize_outgoing_line "PING" = "PING" := by decide
    have hwait : wait_relevant_reply "PING" ["OK PONG"] 80
        ["OK READY", "OK PONG"] [] = .matched "OK PONG" := by decide
    unfold send_cmd send_cmd_sync
    dsimp only
    rw [hsan]
    rw [if_neg (by decide : ¬ ("PING" : String) = "")]
    have hinf : (none : Option (List String)).getD (infer_expect_upper "PING") =
        ["OK PONG"] := by decide
    rw [hinf, hwait]

theorem claim_C2_witness :
    ((line_is_ignored "OK READY" = true →
      wait_relevant_reply "X" ["OK"] 80 ["OK READY"] [] =
        wait_relevant_reply "X" ["OK"] 80 [] []) ∧
    (line_is_ignored "OK READY" = false → line_is_err "OK READY" = true →
      wait_relevant_reply "X" ["OK"] 80 ["OK READY"] [] =
        .protocolError "X" "OK READY") ∧
    (line_is_ignored "OK READY" = false → line_is_err "OK READY" = false →
      line_matches ["OK"] "OK READY" = true →
      wait_relevant_reply "X" ["OK"] 80 ["OK READY"] [] = .matched "OK READY") ∧
    (line_is_ignored "OK READY" = false → line_is_err "OK READY" = false →
      line_matches ["OK"] "OK READY" = false →
      wait_relevant_reply "X" ["OK"] 80 ["OK READY"] [] =
        wait_relevant_reply "X" ["OK"] 80 [] ["OK READY"]) ∧
    (send_cmd ch0 0 "PING" none true true ["OK READY", "OK PONG"]).2.2 =
      .ok "OK PONG") :=
  claim_C2 "X" ["OK"] 80 "OK READY" [] [] ch0 (by decide)

/-! ### Claim C3 -/

/-- C3 (amended): when `max_wait` elapses with no matching reply, the raised
Timeout carries the sent line, the expected prefix set, and at most 10 of the
unexpected lines observed; after a raised error the link is forced closed
when `close_on_error` is true (the default — but two callers opt out), and
always for batch sends. -/
theorem claim_C3 (sent_line : String) (expect_upper : List String)
    (maxLines : ℕ) (st : ChannelState) (now : ℚ) (mark : Bool) :
    (∀ (lines : List String) (s : String) (e shown : List String),
      wait_relevant_reply sent_line expect_upper maxLines lines [] =
        .timeout s e shown →
      s = sent_line ∧ e = expect_upper ∧ shown.length ≤ 10 ∧
      (∀ l ∈ shown, l ∈ lines ∧ line_is_ignored l = false ∧
        line_is_err l = false ∧ line_matches expect_upper l = false)) ∧
    (∀ (line : String) (expect? : Option (List String)) (device : List String)
      (e : SerialErr),
      (send_cmd st now line expect? true mark device).2.2 = .error e →
      (send_cmd st now line expect? true mark device).1.connected = false) ∧
    (∀ (batch : List String) (bdevice : List (List String)) (e : SerialErr),
      (send_cmds st now batch mark bdevice).2.2 = .error e →
      (send_cmds st now batch mark bdevice).1.connected = false) := by
  refine ⟨?_, ?_, ?_⟩
  · intro lines s e shown h
    obtain ⟨h1, h2, h3, h4⟩ := wait_timeout_payload sent_line expect_upper
      maxLines lines [] s e shown h
    refine ⟨h1, h2, h3, ?_⟩
    intro l hl
    rcases h4 l hl with hc | hok
    · simp at hc
    · exact hok
  · intro line expect? device e h
    exact send_cmd_closes_on_error st now line expect? mark device e h
  · intro batch bdevice e h
    exact send_cmds_closes_on_error batch st now mark bdevice e h

theorem claim_C3_witness :
    ("PING" = "PING" ∧ ["OK PONG"] = ["OK PONG"] ∧
      (["WHAT"] : List String).length ≤ 10 ∧
      (∀ l ∈ (["WHAT"] : List String), l ∈ (["WHAT"] : List String) ∧
        line_is_ignored l = false ∧ line_is_err l = false ∧
        line_matches ["OK PONG"] l = false)) ∧
    (send_cmd ch0 0 "PING" none true true ["ERR X"]).1.connected = false ∧
    (send_cmds ch0 0 ["PING"] true [["ERR X"]]).1.connected = false :=
  ⟨(claim_C3 "PING" ["OK PONG"] 80 ch0 0 true).1 ["WHAT"] "PING" ["OK PONG"]
      ["WHAT"] (by decide),
   (claim_C3 "PING" ["OK PONG"] 80 ch0 0 true).2.1 "PING" none ["ERR X"]
      (.protocolError "PING" "ERR X") (by decide),
   (claim_C3 "PING" ["OK PONG"] 80 ch0 0 true).2.2 ["PING"] [["ERR X"]]
      (.protocolError "PING" "ERR X") (by decide)⟩

/-- C3 counterexample: `send_cmd` takes a `close_on_error` flag, and the
servo-power and estop routes pass `close_on_error=False`; with it a raised
ProtocolError leaves the link open, so the close is not unconditional. -/
theorem claim_C3_counterexample :
    (send_cmd chOpen 0 "ServoPwr ARDUINO" (some ["OK SERVO_PWR"]) false true
      ["ERR BOOM"]).2.2 =
      .error (.protocolError "ServoPwr ARDUINO" "ERR BOOM") ∧
    (send_cmd chOpen 0 "ServoPwr ARDUINO" (some ["OK SERVO_PWR"]) false true
      ["ERR BOOM"]).1.connected = true := by
  decide

/-! ### Claim C8

The batch-library `Rat` arithmetic operations are sealed; reopening them for
kernel evaluation lets `decide` run the embedded pipeline on concrete
inputs. -/

section ConcreteEvaluation

attribute [local semireducible] Rat.add Rat.sub Rat.mul Rat.inv

/-- C8: joystick input `x=100, y=0, deadzone=20, scale=1.0` passes through
the pipeline unchanged by the deadzone (`|100| ≥ 20`), mixes to motor values
`(100, -100)`, and dispatches exactly `"SetAEngine 100"` then
`"SetBEngine -100"` as one batch. -/
theorem claim_C8 :
    deadzone 100 20 = 100 ∧ deadzone 0 20 = 0 ∧
    joystick_values 100 0 20 1 = (100, -100) ∧
    (process_joystick ch0 0 100 0 20 1
      [["OK SETAENGINE"], ["OK SETBENGINE"]]).2.1 =
      ["SetAEngine 100", "SetBEngine -100"] ∧
    (process_joystick ch0 0 100 0 20 1
      [["OK SETAENGINE"], ["OK SETBENGINE"]]).2.2 =
      .ok { motor_a := 100, motor_b := -100
            sent := ["SetAEngine 100", "SetBEngine -100"]
            replies := ["OK SETAENGINE", "OK SETBENGINE"] } := by
  decide

end ConcreteEvaluation

/-! ### Claim C5 -/

theorem pyRound_one : pyRound 1 = 1 := by
  have h := pyRound_intCast 1
  simpa using h

/-- The slew state of §8's example: servo 1 last commanded to 0 degrees at
time 0. -/
def demoSlewState : ServoRuntimeState := ⟨[(1, 0)], [(1, 0)], []⟩

/-- C5: with a recorded previous position and a nonzero slew rate, the
applied position moves toward the clamped target by at most
`max (round (rate * dt)) 1` degrees, never overshoots, and never moves away;
with rate 30 deg/s, dt 0.1 s, last 0 and target 90 the next position is 3. -/
theorem claim_C5 (s : ServoSettings) (st : ServoRuntimeState)
    (servo_id target last : ℤ) (now ts : ℚ)
    (hrate : 0 < s.servo_slew_rate_dps)
    (hlast : alookup servo_id st.last_deg = some last)
    (hts : alookup servo_id st.last_update_ts = some ts)
    (hdt : ts < now) :
    |apply_slew_rate s st servo_id target now - last| ≤
      max (pyRound (s.servo_slew_rate_dps * (now - ts))) 1 ∧
    |apply_slew_rate s st servo_id target now - last| ≤ |target - last| ∧
    0 ≤ (apply_slew_rate s st servo_id target now - last) * (target - last) ∧
    apply_slew_rate demoSettings demoSlewState 1 90 (1/10) = 3 := by
  have hconc : apply_slew_rate demoSettings demoSlewState 1 90 (1/10) = 3 := by
    have h3 : pyRound 3 = 3 := by
      have := pyRound_intCast 3
      simpa using this
    norm_num [apply_slew_rate, demoSettings, demoSlewState, alookup, h3]
  have hA : apply_slew_rate s st servo_id target now =
      (if |((target - last : ℤ) : ℚ)| ≤
          (if s.servo_slew_rate_dps * (now - ts) < 1 then 1
            else s.servo_slew_rate_dps * (now - ts)) then target
        else last + (if target - last > 0 then
          pyRound (if s.servo_slew_rate_dps * (now - ts) < 1 then 1
            else s.servo_slew_rate_dps * (now - ts))
          else -pyRound (if s.servo_slew_rate_dps * (now - ts) < 1 then 1
            else s.servo_slew_rate_dps * (now - ts)))) := by
    unfold apply_slew_rate
    rw [if_neg (not_le.mpr hrate), hlast]
    dsimp only
    rw [hts]
    simp only [Option.getD_some]
    rw [if_neg (by linarith : ¬ (now - ts ≤ 0))]
  set md0 : ℚ := s.servo_slew_rate_dps * (now - ts) with hmd0
  set md : ℚ := if md0 < 1 then 1 else md0 with hmd
  have hmd1 : (1 : ℚ) ≤ md := by
    rw [hmd]
    split
    · exact le_refl 1
    · rename_i h1
      exact not_lt.mp h1
  by_cases hsm : |((target - last : ℤ) : ℚ)| ≤ md
  · have hAt : apply_slew_rate s st servo_id target now = target := by
      rw [hA, if_pos hsm]
    rw [hAt]
    have habs : ((|target - last| : ℤ) : ℚ) ≤ md := by
      rw [Int.cast_abs]
      exact hsm
    refine ⟨?_, le_refl _, mul_self_nonneg _, hconc⟩
    rw [hmd] at habs
    by_cases h1 : md0 < 1
    · rw [if_pos h1] at habs
      have : |target - last| ≤ 1 := by exact_mod_cast habs
      exact le_trans this (le_max_right _ _)
    · rw [if_neg h1] at habs
      have hfl : |target - last| ≤ ⌊md0⌋ := Int.le_floor.mpr habs
      exact le_trans (le_trans hfl (floor_le_pyRound md0)) (le_max_left _ _)
  · have hAe : apply_slew_rate s st servo_id target now =
        last + (if target - last > 0 then pyRound md else -pyRound md) := by
      rw [hA, if_neg hsm]
    have hstep1 : 1 ≤ pyRound md := one_le_pyRound hmd1
    have hlt : md < ((|target - last| : ℤ) : ℚ) := by
      rw [Int.cast_abs]
      exact not_le.mp hsm
    have hstep_le : pyRound md ≤ |target - last| := by
      refine le_trans (pyRound_le_ceil md) ?_
      exact Int.ceil_le.mpr (le_of_lt hlt)
    have hstep_bound : pyRound md ≤ max (pyRound md0) 1 := by
      rw [hmd]
      by_cases h1 : md0 < 1
      · rw [if_pos h1, pyRound_one]
        exact le_max_right _ _
      · rw [if_neg h1]
        exact le_max_left _ _
    have hne : target - last ≠ 0 := by
      intro h0
      rw [h0] at hlt
      simp at hlt
      linarith
    by_cases hpos : target - last > 0
    · have hAv : apply_slew_rate s st servo_id target now - last = pyRound md := by
        rw [hAe, if_pos hpos]
        ring
      rw [hAv, abs_of_nonneg (by linarith : (0 : ℤ) ≤ pyRound md)]
      refine ⟨hstep_bound, hstep_le, ?_, hconc⟩
      exact mul_nonneg (by linarith) (by linarith)
    · have hneg : target - last < 0 := lt_of_le_of_ne (not_lt.mp hpos) hne
      have hAv : apply_slew_rate s st servo_id target now - last = -pyRound md := by
        rw [hAe, if_neg hpos]
        ring
      rw [hAv, abs_neg, abs_of_nonneg (by linarith : (0 : ℤ) ≤ pyRound md)]
      refine ⟨hstep_bound, hstep_le, ?_, hconc⟩
      have h2 : (0 : ℤ) ≤ pyRound md * (-(target - last)) :=
        mul_nonneg (by linarith) (by linarith)
      nlinarith

/-! ### Claim C6 -/

/-- The rate-limit state of §8's example: servo 1 last dispatched at time 0. -/
def demoRlState : ServoRuntimeState := ⟨[], [], [(1, 0)]⟩

section ConcreteRateLimit

attribute [local semireducible] Rat.add Rat.sub Rat.mul Rat.inv

/-- C6 counterexample: with the default configuration (`max_hz = 25`, reject
mode), a second call 0.0399 s after the first (inside the 0.04 s minimum
interval) is rejected, but the carried `retry_after_ms` hint is
`round(0.0001 * 1000) = 0`, violating the claimed `1 ms ≤ retry_after`. -/
theorem claim_C6_counterexample :
    ((399 : ℚ)/10000 - 0 < 1 / demoSettings.servo_max_cmd_hz) ∧
    rate_limit_or_fail demoSettings demoRlState 1 (399/10000) = .reject 0 1 ∧
    set_servo_deg demoSettings demoRlState ch0 1 90 (399/10000) (399/10000)
      (1/2) [] = (demoRlState, ch0, [], .error (.rateLimited 1 0)) ∧
    ¬ ((1 : ℤ) ≤ 0) := by
  decide

end ConcreteRateLimit

/-- C6 (amended): in reject mode with `max_hz ≥ 1`, a servo-set call to an
in-range id dispatched less than `1/max_hz` seconds after the previous
dispatch for that id fails RateLimited before any I/O (no wire lines, state
untouched), and the carried retry-after hint equals
`round(remaining * 1000)` ms, which satisfies
`0 ≤ retry_after ≤ ⌈min_interval * 1000⌉`. -/
theorem claim_C6 (s : ServoSettings) (st : ServoRuntimeState)
    (ch : ChannelState) (servo_id deg : ℤ) (now nowRl now2 last : ℚ)
    (device : List String)
    (hid1 : 1 ≤ servo_id) (hid2 : servo_id ≤ s.servo_count)
    (hhz : 1 ≤ s.servo_max_cmd_hz)
    (hmode : strTrim (strLower s.servo_rate_limit_mode) = "reject")
    (hlast : alookup servo_id st.last_cmd_ts = some last)
    (hle : last ≤ nowRl)
    (hfast : nowRl - last < 1 / s.servo_max_cmd_hz) :
    set_servo_deg s st ch servo_id deg now nowRl now2 device =
      (st, ch, [], .error (.rateLimited servo_id
        (pyRound ((1 / s.servo_max_cmd_hz - (nowRl - last)) * 1000)))) ∧
    0 ≤ pyRound ((1 / s.servo_max_cmd_hz - (nowRl - last)) * 1000) ∧
    pyRound ((1 / s.servo_max_cmd_hz - (nowRl - last)) * 1000) ≤
      ⌈(1 / s.servo_max_cmd_hz) * 1000⌉ := by
  have hhz0 : (0 : ℚ) < s.servo_max_cmd_hz := lt_of_lt_of_le one_pos hhz
  have hmax : max (1 : ℚ) s.servo_max_cmd_hz = s.servo_max_cmd_hz :=
    max_eq_right hhz
  have hri : rate_limit_or_fail s st servo_id nowRl =
      .reject (pyRound ((1 / s.servo_max_cmd_hz - (nowRl - last)) * 1000))
        (max 1 (pyInt (1 / s.servo_max_cmd_hz - (nowRl - last)))) := by
    unfold rate_limit_or_fail
    rw [if_neg (not_le.mpr hhz0)]
    dsimp only
    rw [hmax, hlast]
    simp only [Option.getD_some]
    rw [if_neg (not_le.mpr hfast)]
    rw [hmode]
    rw [if_neg (by decide : ¬ ("reject" : String) = "sleep")]
  have hval : ¬ servo_id_out_of_range s servo_id := by
    unfold servo_id_out_of_range
    push_neg
    exact ⟨by linarith, by linarith⟩
  have hw : (0 : ℚ) < 1 / s.servo_max_cmd_hz - (nowRl - last) :=
    sub_pos.mpr hfast
  refine ⟨?_, ?_, ?_⟩
  · unfold set_servo_deg
    rw [if_neg hval]
    dsimp only
    rw [hri]
  · exact pyRound_nonneg (mul_nonneg (le_of_lt hw) (by norm_num))
  · refine le_trans (pyRound_le_ceil _) (Int.ceil_le_ceil ?_)
    have hd0 : (0 : ℚ) ≤ nowRl - last := by linarith
    have : 1 / s.servo_max_cmd_hz - (nowRl - last) ≤ 1 / s.servo_max_cmd_hz := by
      linarith
    exact mul_le_mul_of_nonneg_right this (by norm_num)

section ConcreteRateLimitWitness

attribute [local semireducible] Rat.add Rat.sub Rat.mul Rat.inv

/-- Witness for C6 at the default configuration. -/
theorem claim_C6_witness :
    (set_servo_deg demoSettings demoRlState ch0 1 90 (399/10000) (399/10000)
      (1/2) [] = (demoRlState, ch0, [], .error (.rateLimited 1
        (pyRound ((1 / demoSettings.servo_max_cmd_hz - ((399 : ℚ)/10000 - 0)) *
          1000)))) ∧
    0 ≤ pyRound ((1 / demoSettings.servo_max_cmd_hz - ((399 : ℚ)/10000 - 0)) *
      1000) ∧
    pyRound ((1 / demoSettings.servo_max_cmd_hz - ((399 : ℚ)/10000 - 0)) *
      1000) ≤ ⌈(1 / demoSettings.servo_max_cmd_hz) * 1000⌉) :=
  claim_C6 demoSettings demoRlState ch0 1 90 (399/10000) (399/10000) (1/2) 0 []
    (by decide) (by decide) (by decide) (by decide) (by decide) (by decide)
    (by decide)

end ConcreteRateLimitWitness

/-! ### Claim C9 -/

/-- A fresh per-process servo state (all dicts empty). -/
def emptyServoState : ServoRuntimeState := ⟨[], [], []⟩

/-- C9: a single servo-set call rejects an out-of-range id before any I/O,
and the per-id runtime state (last degrees, last-update and last-dispatch
timestamps) is updated only when the wire dispatch succeeds — on any error
the state is unchanged. -/
theorem claim_C9 (s : ServoSettings) (st : ServoRuntimeState)
    (ch : ChannelState) (servo_id deg : ℤ) (now nowRl now2 : ℚ)
    (device : List String) :
    (servo_id_out_of_range s servo_id →
      set_servo_deg s st ch servo_id deg now nowRl now2 device =
        (st, ch, [], .error (.validation servo_id))) ∧
    (∀ e, (set_servo_deg s st ch servo_id deg now nowRl now2 device).2.2.2 =
        .error e →
      (set_servo_deg s st ch servo_id deg now nowRl now2 device).1 = st) ∧
    (∀ out, (set_servo_deg s st ch servo_id deg now nowRl now2 device).2.2.2 =
        .ok out →
      alookup servo_id
          (set_servo_deg s st ch servo_id deg now nowRl now2 device).1.last_deg =
        some out.applied_deg ∧
      alookup servo_id
          (set_servo_deg s st ch servo_id deg now nowRl now2
            device).1.last_update_ts = some now2 ∧
      alookup servo_id
          (set_servo_deg s st ch servo_id deg now nowRl now2
            device).1.last_cmd_ts = some now2) := by
  by_cases hval : servo_id_out_of_range s servo_id
  · have hres : set_servo_deg s st ch servo_id deg now nowRl now2 device =
        (st, ch, [], .error (.validation servo_id)) := by
      unfold set_servo_deg
      rw [if_pos hval]
    refine ⟨fun _ => hres, ?_, ?_⟩
    · intro e _
      rw [hres]
    · intro out hout
      rw [hres] at hout
      simp at hout
  · refine ⟨fun h => absurd h hval, ?_, ?_⟩
    · intro e he
      unfold set_servo_deg at he ⊢
      rw [if_neg hval] at he ⊢
      dsimp only at he ⊢
      split at he
      · rfl
      · split at he
        · rfl
        · simp at he
    · intro out hout
      unfold set_servo_deg at hout ⊢
      rw [if_neg hval] at hout ⊢
      dsimp only at hout ⊢
      split at hout
      · simp at hout
      · split at hout
        · simp at hout
        · rename_i heq
          simp only [Except.ok.injEq] at hout
          subst hout
          simp [alookup]

section ConcreteServoWitness

attribute [local semireducible] Rat.add Rat.sub Rat.mul Rat.inv

/-- Witness for C9: validation rejection, a timeout leaving the state
untouched, and a successful dispatch updating the per-id entries. -/
theorem claim_C9_witness :
    set_servo_deg demoSettings emptyServoState ch0 99 50 1 1 2 [] =
      (emptyServoState, ch0, [], .error (.validation 99)) ∧
    (set_servo_deg demoSettings emptyServoState ch0 1 90 1 1 2 []).1 =
      emptyServoState ∧
    (alookup 1 (set_servo_deg demoSettings emptyServoState ch0 1 90 1 1 2
        ["OK SETSERVO"]).1.last_deg =
      some ({ id := 1, requested_deg := 90, applied_deg := 90
              sent := "SetServo 1 90",
              reply := "OK SETSERVO" } : ServoSetOut).applied_deg ∧
     alookup 1 (set_servo_deg demoSettings emptyServoState ch0 1 90 1 1 2
        ["OK SETSERVO"]).1.last_update_ts = some 2 ∧
     alookup 1 (set_servo_deg demoSettings emptyServoState ch0 1 90 1 1 2
        ["OK SETSERVO"]).1.last_cmd_ts = some 2) :=
  ⟨(claim_C9 demoSettings emptyServoState ch0 99 50 1 1 2 []).1 (by decide),
   (claim_C9 demoSettings emptyServoState ch0 1 90 1 1 2 []).2.1
     (.serial (.timeout "SetServo 1 90" ["OK SETSERVO"] [])) (by decide),
   (claim_C9 demoSettings emptyServoState ch0 1 90 1 1 2 ["OK SETSERVO"]).2.2
     { id := 1, requested_deg := 90, applied_deg := 90
       sent := "SetServo 1 90", reply := "OK SETSERVO" } (by decide)⟩

end ConcreteServoWitness

/-! ### Claim C10 -/

theorem alookup_mem {α : Type} (k : ℤ) (v : α) :
    ∀ l : List (ℤ × α), alookup k l = some v → (k, v) ∈ l := by
  intro l
  induction l with
  | nil => intro h; simp [alookup] at h
  | cons p rest ih =>
    obtain ⟨a, b⟩ := p
    intro h
    unfold alookup at h
    split at h
    · rename_i hk
      simp only [Option.some.injEq] at h
      subst h
      subst hk
      exact List.mem_cons_self _ _
    · exact List.mem_cons_of_mem _ (ih h)

theorem limits_for_bounds (s : ServoSettings) (servo_id : ℤ) :
    0 ≤ (limits_for s servo_id).1 ∧
    (limits_for s servo_id).1 ≤ (limits_for s servo_id).2 ∧
    (limits_for s servo_id).2 ≤ 180 := by
  unfold limits_for
  dsimp only
  have h1 := clamp_mem
    (v := ((alookup servo_id s.servo_limits).getD
      (s.servo_default_min_deg, s.servo_default_max_deg)).1)
    (show (0 : ℤ) ≤ 180 by norm_num)
  have h2 := clamp_mem
    (v := ((alookup servo_id s.servo_limits).getD
      (s.servo_default_min_deg, s.servo_default_max_deg)).2)
    (show (0 : ℤ) ≤ 180 by norm_num)
  split
  · rename_i hgt
    exact ⟨h2.1, le_of_lt hgt, h1.2⟩
  · rename_i hle
    exact ⟨h1.1, not_lt.mp hle, h2.2⟩

theorem slew_core_between (last target : ℤ) (md : ℚ) (hmd : 1 ≤ md) :
    min last target ≤ (if |((target - last : ℤ) : ℚ)| ≤ md then target
      else last + (if target - last > 0 then pyRound md else -pyRound md)) ∧
    (if |((target - last : ℤ) : ℚ)| ≤ md then target
      else last + (if target - last > 0 then pyRound md else -pyRound md)) ≤
      max last target := by
  by_cases hsm : |((target - last : ℤ) : ℚ)| ≤ md
  · rw [if_pos hsm]
    exact ⟨min_le_right _ _, le_max_right _ _⟩
  · rw [if_neg hsm]
    have hstep1 : 1 ≤ pyRound md := one_le_pyRound hmd
    have hlt : md < ((|target - last| : ℤ) : ℚ) := by
      rw [Int.cast_abs]
      exact not_le.mp hsm
    have hstep_le : pyRound md ≤ |target - last| :=
      le_trans (pyRound_le_ceil md) (Int.ceil_le.mpr (le_of_lt hlt))
    by_cases hpos : target - last > 0
    · rw [if_pos hpos]
      have habs : |target - last| = target - last := abs_of_pos hpos
      rw [habs] at hstep_le
      constructor
      · exact le_trans (min_le_left _ _) (by linarith)
      · exact le_trans (by linarith) (le_max_right _ _)
    · rw [if_neg hpos]
      have hneg : target - last ≤ 0 := not_lt.mp hpos
      have habs : |target - last| = -(target - last) := abs_of_nonpos hneg
      rw [habs] at hstep_le
      constructor
      · exact le_trans (min_le_right _ _) (by linarith)
      · exact le_trans (by linarith) (le_max_left _ _)

/-- The slew-shaped position either equals the (clamped) target, or lies
between the recorded last position and the target. -/
theorem apply_slew_between (s : ServoSettings) (st : ServoRuntimeState)
    (servo_id target : ℤ) (now : ℚ) :
    apply_slew_rate s st servo_id target now = target ∨
    ∃ last, alookup servo_id st.last_deg = some last ∧
      min last target ≤ apply_slew_rate s st servo_id target now ∧
      apply_slew_rate s st servo_id target now ≤ max last target := by
  unfold apply_slew_rate
  dsimp only
  by_cases hrate : s.servo_slew_rate_dps ≤ 0
  · rw [if_pos hrate]
    exact Or.inl rfl
  · rw [if_neg hrate]
    rcases hlk : alookup servo_id st.last_deg with _ | last
    · exact Or.inl rfl
    · right
      refine ⟨last, rfl, ?_⟩
      dsimp only
      set dt : ℚ := if now - (alookup servo_id st.last_update_ts).getD now ≤ 0
        then 1/50 else now - (alookup servo_id st.last_update_ts).getD now with hdt
      have hdtpos : 0 < dt := by
        rw [hdt]
        split
        · norm_num
        · rename_i hd
          exact lt_of_not_le hd
      set md : ℚ := if s.servo_slew_rate_dps * dt < 1 then 1
        else s.servo_slew_rate_dps * dt with hmd
      have hmd1 : (1 : ℚ) ≤ md := by
        rw [hmd]
        split
        · exact le_refl 1
        · rename_i h1
          exact not_lt.mp h1
      exact slew_core_between last target md hmd1

/-- C10: for every configuration and in-range id, the degrees dispatched to
the device lie in `[0, 180]`: resolved limits are clamped into `[0, 180]`
(swapped if inverted), the request is clamped into them, and slew shaping
stays between the last position and the clamped target; the per-id state
invariant `last_deg ∈ [0, 180]` is preserved. -/
theorem claim_C10 (s : ServoSettings) (st : ServoRuntimeState)
    (ch : ChannelState) (servo_id deg : ℤ) (now nowRl now2 : ℚ)
    (device : List String)
    (hinv : ∀ p ∈ st.last_deg, 0 ≤ p.2 ∧ p.2 ≤ 180) :
    (0 ≤ (limits_for s servo_id).1 ∧
      (limits_for s servo_id).1 ≤ (limits_for s servo_id).2 ∧
      (limits_for s servo_id).2 ≤ 180) ∧
    (∀ out, (set_servo_deg s st ch servo_id deg now nowRl now2 device).2.2.2 =
        .ok out →
      0 ≤ out.applied_deg ∧ out.applied_deg ≤ 180 ∧
      out.sent = s!"SetServo {servo_id} {out.applied_deg}" ∧
      (∀ p ∈ (set_servo_deg s st ch servo_id deg now nowRl now2
          device).1.last_deg, 0 ≤ p.2 ∧ p.2 ≤ 180)) := by
  obtain ⟨hlo, hlohi, hhi⟩ := limits_for_bounds s servo_id
  refine ⟨⟨hlo, hlohi, hhi⟩, ?_⟩
  have hclamp := clamp_mem (v := deg) hlohi
  have htgt0 : 0 ≤ clamp deg (limits_for s servo_id).1 (limits_for s servo_id).2 :=
    le_trans hlo hclamp.1
  have htgt180 : clamp deg (limits_for s servo_id).1 (limits_for s servo_id).2 ≤ 180 :=
    le_trans hclamp.2 hhi
  have hT : 0 ≤ apply_slew_rate s st servo_id
      (clamp deg (limits_for s servo_id).1 (limits_for s servo_id).2) now ∧
      apply_slew_rate s st servo_id
        (clamp deg (limits_for s servo_id).1 (limits_for s servo_id).2) now ≤ 180 := by
    rcases apply_slew_between s st servo_id
      (clamp deg (limits_for s servo_id).1 (limits_for s servo_id).2) now with
      he | ⟨last, hlk, hmin, hmax2⟩
    · rw [he]
      exact ⟨htgt0, htgt180⟩
    · obtain ⟨hl0, hl180⟩ := hinv _ (alookup_mem _ _ _ hlk)
      constructor
      · exact le_trans (le_min hl0 htgt0) hmin
      · exact le_trans hmax2 (max_le hl180 htgt180)
  intro out hout
  by_cases hval : servo_id_out_of_range s servo_id
  · unfold set_servo_deg at hout
    rw [if_pos hval] at hout
    simp at hout
  · unfold set_servo_deg at hout ⊢
    rw [if_neg hval] at hout ⊢
    dsimp only at hout ⊢
    split at hout
    · simp at hout
    · split at hout
      · simp at hout
      · simp only [Except.ok.injEq] at hout
        subst hout
        refine ⟨hT.1, hT.2, rfl, ?_⟩
        intro p hp
        rcases List.mem_cons.mp hp with hp1 | hp2
        · rw [hp1]
          exact ⟨hT.1, hT.2⟩
        · exact hinv p hp2

/-- Witness for C10 at the default configuration and a fresh state. -/
theorem claim_C10_witness :
    (0 ≤ (limits_for demoSettings 1).1 ∧
      (limits_for demoSettings 1).1 ≤ (limits_for demoSettings 1).2 ∧
      (limits_for demoSettings 1).2 ≤ 180) ∧
    (∀ out, (set_servo_deg demoSettings emptyServoState ch0 1 90 1 1 2
        ["OK SETSERVO"]).2.2.2 = .ok out →
      0 ≤ out.applied_deg ∧ out.applied_deg ≤ 180 ∧
      out.sent = s!"SetServo {(1 : ℤ)} {out.applied_deg}" ∧
      (∀ p ∈ (set_servo_deg demoSettings emptyServoState ch0 1 90 1 1 2
          ["OK SETSERVO"]).1.last_deg, 0 ≤ p.2 ∧ p.2 ≤ 180)) :=
  claim_C10 demoSettings emptyServoState ch0 1 90 1 1 2 ["OK SETSERVO"]
    (by simp [emptyServoState])

/-! ### Claim C4 -/

/-- Watchdog settings mirroring the config defaults: enabled, 0.2 s tick,
1.5 s motor-idle threshold, servo safe-pose disabled. -/
def demoWd : WatchdogSettings := ⟨true, 1/5, 3/2, 6, false⟩

/-- A device that acknowledges both halves of the watchdog stop batch. -/
def okStopDev : List (List String) := [["OK SETAENGINE"], ["OK SETBENGINE"]]

theorem watchdog_tick_not_idle (ws : WatchdogSettings) (ss : ServoSettings)
    (estop : Bool) (wd : WdState) (ch : ChannelState) (now : ℚ)
    (devM devS : List (List String))
    (hen : ws.watchdog_enabled = true)
    (hsv : ws.watchdog_servo_safe_enabled = false)
    (hni : ¬ motor_idle_cond ws ch now) :
    watchdog_tick ws ss estop wd ch now devM devS =
      ({ wd with motor_applied := false }, ch, []) := by
  unfold watchdog_tick
  rw [if_neg (by rw [hen]; simp)]
  rw [if_neg hni]
  dsimp only
  rw [if_neg (by rw [hsv]; simp)]

theorem watchdog_tick_idle_applied (ws : WatchdogSettings) (ss : ServoSettings)
    (estop : Bool) (wd : WdState) (ch : ChannelState) (now : ℚ)
    (devM devS : List (List String))
    (hen : ws.watchdog_enabled = true)
    (hsv : ws.watchdog_servo_safe_enabled = false)
    (hidle : motor_idle_cond ws ch now)
    (happ : wd.motor_applied = true) :
    watchdog_tick ws ss estop wd ch now devM devS = (wd, ch, []) := by
  unfold watchdog_tick
  rw [if_neg (by rw [hen]; simp)]
  rw [if_pos hidle, happ]
  dsimp only
  rw [if_neg (by rw [hsv]; simp)]
  rfl

theorem watchdog_tick_idle_fresh (ws : WatchdogSettings) (ss : ServoSettings)
    (estop : Bool) (wd : WdState) (ch : ChannelState) (now : ℚ)
    (devM devS : List (List String))
    (hen : ws.watchdog_enabled = true)
    (hsv : ws.watchdog_servo_safe_enabled = false)
    (hidle : motor_idle_cond ws ch now)
    (happ : wd.motor_applied = false) :
    watchdog_tick ws ss estop wd ch now devM devS =
      ({ wd with motor_applied := true }, (try_stop_motors ch now devM).1,
        (try_stop_motors ch now devM).2.1) := by
  unfold watchdog_tick
  rw [if_neg (by rw [hen]; simp)]
  rw [if_pos hidle, happ]
  dsimp only
  rw [if_neg (by rw [hsv]; simp)]
  rfl

/-- The watchdog stop is sent with `mark_activity=False`: it leaves the
motor-activity clock untouched. -/
theorem try_stop_motors_ts (ch : ChannelState) (now : ℚ)
    (devM : List (List String)) :
    (try_stop_motors ch now devM).1.last_motor_ts = ch.last_motor_ts := by
  unfold try_stop_motors
  have h := (send_cmds_no_mark_ts ["SetAEngine 0", "SetBEngine 0"] ch now devM).1
  split <;> rename_i heq <;> rw [heq] at h <;> exact h

/-- Against an acknowledging device, the watchdog stop issues exactly the two
zero-speed lines. -/
theorem try_stop_motors_ok (ch : ChannelState) (now : ℚ) :
    try_stop_motors ch now okStopDev =
      ({ ch with connected := true }, ["SetAEngine 0", "SetBEngine 0"], true) := by
  have hsA : sanitize_outgoing_line "SetAEngine 0" = "SetAEngine 0" := by decide
  have hsB : sanitize_outgoing_line "SetBEngine 0" = "SetBEngine 0" := by decide
  have hiA : infer_expect_upper "SetAEngine 0" = ["OK SETAENGINE"] := by decide
  have hiB : infer_expect_upper "SetBEngine 0" = ["OK SETBENGINE"] := by decide
  have hwA : wait_relevant_reply "SetAEngine 0" ["OK SETAENGINE"] 80
      ["OK SETAENGINE"] [] = .matched "OK SETAENGINE" := by decide
  have hwB : wait_relevant_reply "SetBEngine 0" ["OK SETBENGINE"] 80
      ["OK SETBENGINE"] [] = .matched "OK SETBENGINE" := by decide
  simp [try_stop_motors, send_cmds, send_cmd_sync, okStopDev, hsA, hsB, hiA,
    hiB, hwA, hwB]

/-- While every tick stays idle and the episode flag is set, further ticks
issue nothing and change nothing. -/
theorem watchdog_run_applied (ws : WatchdogSettings) (ss : ServoSettings)
    (estop : Bool)
    (ticks : List (ℚ × List (List String) × List (List String))) :
    ∀ (wd : WdState) (ch : ChannelState),
      ws.watchdog_enabled = true → ws.watchdog_servo_safe_enabled = false →
      wd.motor_applied = true →
      (∀ t ∈ ticks, motor_idle_cond ws ch t.1) →
      watchdog_run ws ss estop wd ch ticks = (wd, ch, []) := by
  induction ticks with
  | nil => intro wd ch _ _ _ _; rfl
  | cons t rest ih =>
    intro wd ch hen hsv happ hidle
    unfold watchdog_run
    rw [watchdog_tick_idle_applied ws ss estop wd ch t.1 t.2.1 t.2.2 hen hsv
      (hidle t (List.mem_cons_self t rest)) happ]
    dsimp only
    rw [ih wd ch hen hsv happ (fun u hu => hidle u (List.mem_cons_of_mem t hu))]
    rfl

/-- C4 (amended): during an idle episode the watchdog issues the stop batch
exactly once — on the first idle tick — not once per tick; the episode flag
resets as soon as the idle condition fails; the stop is exempt from activity
bookkeeping.  The idle clock is `last_motor_ts`, which the channel marks at
dispatch time for every attempted motor command (successful or not). -/
theorem claim_C4 (ws : WatchdogSettings) (ss : ServoSettings) (estop : Bool)
    (wd : WdState) (ch : ChannelState) (t1 : ℚ)
    (rest : List (ℚ × List (List String) × List (List String)))
    (devS : List (List String))
    (hen : ws.watchdog_enabled = true)
    (hsv : ws.watchdog_servo_safe_enabled = false)
    (hflag : wd.motor_applied = false)
    (hidle1 : motor_idle_cond ws ch t1)
    (hidleR : ∀ t ∈ rest, motor_idle_cond ws ch t.1) :
    (watchdog_run ws ss estop wd ch ((t1, okStopDev, devS) :: rest)).2.2 =
      ["SetAEngine 0", "SetBEngine 0"] ∧
    (watchdog_run ws ss estop wd ch
      ((t1, okStopDev, devS) :: rest)).1.motor_applied = true ∧
    (watchdog_run ws ss estop wd ch
      ((t1, okStopDev, devS) :: rest)).2.1.last_motor_ts = ch.last_motor_ts ∧
    (∀ (wd2 : WdState) (ch2 : ChannelState) (now : ℚ)
      (devM devS2 : List (List String)),
      ¬ motor_idle_cond ws ch2 now →
      watchdog_tick ws ss estop wd2 ch2 now devM devS2 =
        ({ wd2 with motor_applied := false }, ch2, [])) := by
  have hrun : watchdog_run ws ss estop wd ch ((t1, okStopDev, devS) :: rest) =
      ({ wd with motor_applied := true }, { ch with connected := true },
        ["SetAEngine 0", "SetBEngine 0"]) := by
    unfold watchdog_run
    rw [watchdog_tick_idle_fresh ws ss estop wd ch t1 okStopDev devS hen hsv
      hidle1 hflag]
    rw [try_stop_motors_ok ch t1]
    dsimp only
    rw [watchdog_run_applied ws ss estop rest { wd with motor_applied := true }
      { ch with connected := true } hen hsv rfl
      (fun u hu => hidleR u hu)]
    rfl
  refine ⟨by rw [hrun], by rw [hrun], by rw [hrun], ?_⟩
  intro wd2 ch2 now devM devS2 hni
  exact watchdog_tick_not_idle ws ss estop wd2 ch2 now devM devS2 hen hsv hni

/-- A connected channel whose last motor activity was at time 1. -/
def chIdle : ChannelState := ⟨true, 1, 1, 0⟩

/-- The channel after a successful motor command at time 1. -/
def chAfterSuccess : ChannelState :=
  (send_cmd ch0 1 "SetAEngine 50" none true true ["OK SETAENGINE"]).1

/-- The channel after a further motor command at time 5 that the device
answered with an error. -/
def chAfterFail : ChannelState :=
  (send_cmd chAfterSuccess 5 "SetAEngine 60" none true true ["ERR NOPE"]).1

section ConcreteWatchdog

attribute [local semireducible] Rat.add Rat.sub Rat.mul Rat.inv

/-- Witness for C4: three consecutive idle ticks issue exactly one stop
batch. -/
theorem claim_C4_witness :
    (watchdog_run demoWd demoSettings false ⟨false, false⟩ chIdle
      ((3, okStopDev, []) :: [(16/5, okStopDev, []), (17/5, okStopDev, [])])).2.2 =
      ["SetAEngine 0", "SetBEngine 0"] ∧
    (watchdog_run demoWd demoSettings false ⟨false, false⟩ chIdle
      ((3, okStopDev, []) :: [(16/5, okStopDev, []),
        (17/5, okStopDev, [])])).1.motor_applied = true ∧
    (watchdog_run demoWd demoSettings false ⟨false, false⟩ chIdle
      ((3, okStopDev, []) :: [(16/5, okStopDev, []),
        (17/5, okStopDev, [])])).2.1.last_motor_ts = chIdle.last_motor_ts ∧
    (∀ (wd2 : WdState) (ch2 : ChannelState) (now : ℚ)
      (devM devS2 : List (List String)),
      ¬ motor_idle_cond demoWd ch2 now →
      watchdog_tick demoWd demoSettings false wd2 ch2 now devM devS2 =
        ({ wd2 with motor_applied := false }, ch2, [])) :=
  claim_C4 demoWd demoSettings false ⟨false, false⟩ chIdle 3
    [(16/5, okStopDev, []), (17/5, okStopDev, [])] [] rfl rfl rfl
    (by decide) (by decide)

/-- C4 counterexample: the activity clock is marked at dispatch time, so a
motor command the device answers with an error still resets it; at time 6
the elapsed time since the last *successful* command (time 1) exceeds the
1.5 s threshold, yet the watchdog issues no stop because the failed attempt
at time 5 reset the clock. -/
theorem claim_C4_counterexample :
    (send_cmd ch0 1 "SetAEngine 50" none true true ["OK SETAENGINE"]).2.2 =
      .ok "OK SETAENGINE" ∧
    chAfterSuccess.last_motor_ts = 1 ∧
    (send_cmd chAfterSuccess 5 "SetAEngine 60" none true true ["ERR NOPE"]).2.2 =
      .error (.protocolError "SetAEngine 60" "ERR NOPE") ∧
    chAfterFail.last_motor_ts = 5 ∧
    ((3 : ℚ)/2 ≤ 6 - 1) ∧
    motor_idle_cond demoWd chAfterSuccess 6 ∧
    ¬ motor_idle_cond demoWd chAfterFail 6 ∧
    (watchdog_tick demoWd demoSettings false ⟨false, false⟩ chAfterFail 6
      okStopDev []).2.2 = [] := by
  decide

end ConcreteWatchdog

/-! ### Claim C7 -/

theorem send_cmds_cons_issued (x : String) (rest : List String)
    (st : ChannelState) (now : ℚ) (mark : Bool) (device : List (List String))
    (hx : sanitize_outgoing_line x ≠ "") :
    ∃ t, (send_cmds st now (x :: rest) mark device).2.1 =
      sanitize_outgoing_line x :: t := by
  unfold send_cmds
  dsimp only
  split
  · rename_i st2 issued e heq
    have h := send_cmd_sync_issued_eq (if mark then mark_activity_line st now x else st)
      now x (some (infer_expect_upper x)) 80 false (device.headD []) hx
    rw [heq] at h
    dsimp only at h
    exact ⟨[], by rw [h]⟩
  · rename_i st2 issued r heq
    have h := send_cmd_sync_issued_eq (if mark then mark_activity_line st now x else st)
      now x (some (infer_expect_upper x)) 80 false (device.headD []) hx
    rw [heq] at h
    dsimp only at h
    split
    · rename_i st3 issued2 rs heq2
      exact ⟨issued2, by rw [h]; rfl⟩
    · rename_i st3 issued2 e heq2
      exact ⟨issued2, by rw [h]; rfl⟩

/-- The `stop` maneuver's dispatch always puts `"SetAEngine 0"` on the wire
first, whatever the device then answers. -/
theorem run_action_stop_head (ch : ChannelState) (now : ℚ)
    (deviceStop : List (List String)) :
    "SetAEngine 0" ∈ (run_action ch now "stop" 0 deviceStop).2.1 := by
  have hb : action_build "stop" (clamp 0 0 255) =
      some ["SetAEngine 0", "SetBEngine 0"] := by decide
  unfold run_action
  dsimp only
  rw [hb]
  dsimp only
  obtain ⟨t, ht⟩ := send_cmds_cons_issued "SetAEngine 0" ["SetBEngine 0"] ch now
    true deviceStop (by decide)
  split
  · rename_i st2 issued replies heq
    rw [heq] at ht
    dsimp only at ht ⊢
    rw [ht]
    exact List.mem_cons_self _ _
  · rename_i st2 issued e heq
    rw [heq] at ht
    dsimp only at ht ⊢
    rw [ht]
    exact List.mem_cons_self _ _

/-- C7 (amended): a timed action dispatches the maneuver, waits, then
dispatches `stop` — but only when the maneuver dispatch succeeded; when the
maneuver raises, the error propagates and no stop is dispatched. -/
theorem claim_C7 (ch : ChannelState) (now : ℚ) (action : String)
    (power duration_ms : ℤ) (device deviceStop : List (List String))
    (hdur : 0 < duration_ms) :
    (∀ (ch1 : ChannelState) (issued1 : List String)
      (sr : List String × List String),
      run_action ch now action power device = (ch1, issued1, .ok sr) →
      "SetAEngine 0" ∈
        (actions_run false ch now action power duration_ms device
          deviceStop).2.1) ∧
    (∀ (ch1 : ChannelState) (issued1 : List String) (e : ApiErr),
      run_action ch now action power device = (ch1, issued1, .error e) →
      actions_run false ch now action power duration_ms device deviceStop =
        (ch1, issued1, .error e)) := by
  constructor
  · intro ch1 issued1 sr h
    unfold actions_run
    rw [show ensure_not_estopped false = Except.ok () from rfl]
    dsimp only
    rw [h]
    dsimp only
    rw [if_pos hdur]
    have hmem := run_action_stop_head ch1 now deviceStop
    split
    · rename_i st2 issued2 sr2 heq
      rw [heq] at hmem
      dsimp only at hmem ⊢
      exact List.mem_append.mpr (Or.inr hmem)
    · rename_i st2 issued2 e heq
      rw [heq] at hmem
      dsimp only at hmem ⊢
      exact List.mem_append.mpr (Or.inr hmem)
  · intro ch1 issued1 e h
    unfold actions_run
    rw [show ensure_not_estopped false = Except.ok () from rfl]
    dsimp only
    rw [h]

section ConcreteActions

attribute [local semireducible] Rat.add Rat.sub Rat.mul Rat.inv

/-- C7 counterexample: `forward` at power 160 with a 500 ms duration against
a device that answers `ERR` — the maneuver raises and the route dispatches no
stop at all: the only wire line is the failed `"SetAEngine 160"`. -/
theorem claim_C7_counterexample :
    (actions_run false ch0 0 "forward" 160 500 [["ERR FAIL"]] okStopDev).2.1 =
      ["SetAEngine 160"] ∧
    (actions_run false ch0 0 "forward" 160 500 [["ERR FAIL"]] okStopDev).2.2 =
      .error (.serial (.protocolError "SetAEngine 160" "ERR FAIL")) ∧
    "SetAEngine 0" ∉
      (actions_run false ch0 0 "forward" 160 500 [["ERR FAIL"]] okStopDev).2.1 := by
  decide

/-- Witness for C7: a successful maneuver is followed by the trailing stop,
and a failed maneuver propagates its error with no stop dispatched. -/
theorem claim_C7_witness :
    "SetAEngine 0" ∈
      (actions_run false ch0 0 "forward" 160 500 okStopDev okStopDev).2.1 ∧
    actions_run false ch0 0 "forward" 160 500 [["ERR FAIL"]] okStopDev =
      (ch0, ["SetAEngine 160"],
        .error (.serial (.protocolError "SetAEngine 160" "ERR FAIL"))) :=
  ⟨(claim_C7 ch0 0 "forward" 160 500 okStopDev okStopDev (by decide)).1
      ⟨true, 0, 0, 0⟩ ["SetAEngine 160", "SetBEngine 160"]
      (["SetAEngine 160", "SetBEngine 160"],
        ["OK SETAENGINE", "OK SETBENGINE"]) (by decide),
   (claim_C7 ch0 0 "forward" 160 500 [["ERR FAIL"]] okStopDev (by decide)).2
      ch0 ["SetAEngine 160"]
      (.serial (.protocolError "SetAEngine 160" "ERR FAIL")) (by decide)⟩

end ConcreteActions

/-! ### Claim C1 -/

theorem send_cmd_issued (st : ChannelState) (now : ℚ) (line : String)
    (expect? : Option (List String)) (coe mark : Bool) (device : List String) :
    (send_cmd st now line expect? coe mark device).2.1 =
      (send_cmd_sync st now line expect? 80 mark device).2.1 := by
  unfold send_cmd
  split
  · rename_i st1 issued r heq
    rw [heq]
  · rename_i st1 issued e heq
    rw [heq]

theorem motor_route_issued (ch : ChannelState) (now : ℚ) (cmd : String)
    (speed : ℤ) (device : List String)
    (h : sanitize_outgoing_line (s!"{cmd} {speed}") ≠ "") :
    (motor_route false ch now cmd speed device).2.1 =
      [sanitize_outgoing_line (s!"{cmd} {speed}")] := by
  unfold motor_route
  rw [show ensure_not_estopped false = Except.ok () from rfl]
  dsimp only
  split
  · rename_i ch1 issued reply heq
    have h2 := send_cmd_issued ch now (s!"{cmd} {speed}")
      (some (infer_expect_upper (s!"{cmd} {speed}"))) true true device
    rw [heq] at h2
    dsimp only at h2 ⊢
    rw [h2, send_cmd_sync_issued_eq _ _ _ _ _ _ _ h]
  · rename_i ch1 issued e heq
    have h2 := send_cmd_issued ch now (s!"{cmd} {speed}")
      (some (infer_expect_upper (s!"{cmd} {speed}"))) true true device
    rw [heq] at h2
    dsimp only at h2 ⊢
    rw [h2, send_cmd_sync_issued_eq _ _ _ _ _ _ _ h]

/-- C1: while the E-STOP latch is set, the motor route, the servo route and
the actions route are refused with the 423 EstopActive signal and put nothing
on the wire; the WebSocket dispatch activity issues at most the explicit
zero-stop pair and reports an estop error frame; an explicit reset clears the
latch, after which the motor route dispatches its command line normally. -/
theorem claim_C1 (ch : ChannelState) (now : ℚ) (estop0 : Bool) :
    (∀ (cmd : String) (speed : ℤ) (device : List String),
      motor_route true ch now cmd speed device =
        (ch, [], .error .estopLocked)) ∧
    (∀ (s : ServoSettings) (st : ServoRuntimeState) (servo_id deg : ℤ)
      (nowRl now2 : ℚ) (device : List String),
      servo_route true s st ch servo_id deg now nowRl now2 device =
        (st, ch, [], .error .estopLocked)) ∧
    (∀ (action : String) (power dur : ℤ) (device devStop : List (List String)),
      actions_run true ch now action power dur device devStop =
        (ch, [], .error .estopLocked)) ∧
    (∀ (stop_on_close : Bool) (ws : WsSessionState) (x y dz : ℤ) (scale : ℚ)
      (targetSeq : ℕ) (device : List (List String)),
      (∀ l ∈ (ws_dispatch_one stop_on_close true ws ch now x y dz scale
          targetSeq device).2.2.1,
        l = "SetAEngine 0" ∨ l = "SetBEngine 0") ∧
      (ws_dispatch_one stop_on_close true ws ch now x y dz scale targetSeq
        device).2.2.2 = .errEstop targetSeq) ∧
    estop_reset_latch estop0 = false ∧
    estop_set_latch estop0 = true ∧
    (∀ device : List String,
      (motor_route false ch now "SetAEngine" 100 device).2.1 =
        ["SetAEngine 100"]) := by
  refine ⟨fun _ _ _ => rfl, fun _ _ _ _ _ _ _ => rfl, fun _ _ _ _ _ => rfl,
    ?_, rfl, rfl, ?_⟩
  · intro stop_on_close ws x y dz scale targetSeq device
    constructor
    · intro l hl
      unfold ws_dispatch_one at hl
      rw [if_pos rfl] at hl
      dsimp only at hl
      by_cases hss : ws.estop_stop_sent = true
      · rw [if_neg (fun hc => hc hss)] at hl
        simp at hl
      · rw [if_pos hss] at hl
        unfold ws_safe_stop at hl
        by_cases hsoc : stop_on_close = true
        · rw [if_neg (fun hc => hc hsoc)] at hl
          dsimp only at hl
          obtain ⟨l0, hl0, he⟩ := send_cmds_issued_sub
            ["SetAEngine 0", "SetBEngine 0"] ch now true device l hl
          rcases List.mem_cons.mp hl0 with h0 | h0
          · subst h0
            exact Or.inl (by rw [he]; decide)
          · have h1 : l0 = "SetBEngine 0" := by simpa using h0
            subst h1
            exact Or.inr (by rw [he]; decide)
        · rw [if_pos hsoc] at hl
          simp at hl
    · rfl
  · intro device
    have h := motor_route_issued ch now "SetAEngine" 100 device (by decide)
    exact h.trans (by decide)

section ConcreteEstop

/-- Witness for C1: concrete refusals under the latch, the WS estop frame,
the latch transitions, and a restored dispatch after reset. -/
theorem claim_C1_witness :
    motor_route true ch0 0 "SetAEngine" 100 ["OK SETAENGINE"] =
      (ch0, [], .error .estopLocked) ∧
    servo_route true demoSettings emptyServoState ch0 1 90 0 0 0
      ["OK SETSERVO"] = (emptyServoState, ch0, [], .error .estopLocked) ∧
    actions_run true ch0 0 "forward" 160 0 okStopDev okStopDev =
      (ch0, [], .error .estopLocked) ∧
    ("SetAEngine 0" = "SetAEngine 0" ∨ "SetAEngine 0" = "SetBEngine 0") ∧
    (ws_dispatch_one true true ⟨false, 0, 0⟩ ch0 0 100 0 20 1 5
      okStopDev).2.2.2 = .errEstop 5 ∧
    estop_reset_latch false = false ∧
    estop_set_latch false = true ∧
    (motor_route false ch0 0 "SetAEngine" 100 ["OK SETAENGINE"]).2.1 =
      ["SetAEngine 100"] :=
  ⟨(claim_C1 ch0 0 false).1 "SetAEngine" 100 ["OK SETAENGINE"],
   (claim_C1 ch0 0 false).2.1 demoSettings emptyServoState 1 90 0 0
     ["OK SETSERVO"],
   (claim_C1 ch0 0 false).2.2.1 "forward" 160 0 okStopDev okStopDev,
   ((claim_C1 ch0 0 false).2.2.2.1 true ⟨false, 0, 0⟩ 100 0 20 1 5
     okStopDev).1 "SetAEngine 0" (by decide),
   ((claim_C1 ch0 0 false).2.2.2.1 true ⟨false, 0, 0⟩ 100 0 20 1 5
     okStopDev).2,
   (claim_C1 ch0 0 false).2.2.2.2.1,
   (claim_C1 ch0 0 false).2.2.2.2.2.1,
   (claim_C1 ch0 0 false).2.2.2.2.2.2 ["OK SETAENGINE"]⟩

end ConcreteEstop

/-- Witness for C5 at the spec's own numbers. -/
theorem claim_C5_witness :
    |apply_slew_rate demoSettings demoSlewState 1 90 (1/10) - 0| ≤
      max (pyRound (demoSettings.servo_slew_rate_dps * ((1/10 : ℚ) - 0))) 1 ∧
    |apply_slew_rate demoSettings demoSlewState 1 90 (1/10) - 0| ≤ |(90 : ℤ) - 0| ∧
    0 ≤ (apply_slew_rate demoSettings demoSlewState 1 90 (1/10) - 0) * ((90 : ℤ) - 0) ∧
    apply_slew_rate demoSettings demoSlewState 1 90 (1/10) = 3 :=
  claim_C5 demoSettings demoSlewState 1 90 0 (1/10) 0
    (by norm_num [demoSettings]) (by decide) (by decide) (by norm_num)
